import Mathlib

/-!
# c1-launcher: build verification, launch sequencing and callback handlers

A shallow embedding of `Code/Launcher/LauncherCommon.cpp` and
`Code/Launcher/Game/GameLauncher.cpp`.

* Pointers (`void*`, `IGameStartup*`) are natural numbers, `0` being `NULL`.
* C++ `int` values are integers.
* A `throw` is the `error` alternative of a result; the thrown object records
  the constructor that was used together with its format string and arguments.
* Everything the launcher asks of the operating system or of the engine
  (module loading, symbol lookup, version resources, command line, the
  memory patches themselves) is an oracle of an environment record, so every
  theorem quantified over the environment covers every outcome of those calls.
* Side effects that the claims talk about are recorded, in program order, in a
  trace of events.
-/

namespace C1Launcher

/-! ## Thrown objects -/

/-- The objects thrown by the launcher: `StringTools::Error(format, ...)` and
`StringTools::OSError(format, ...)`, kept as the format string with the
integer arguments passed to it. -/
inductive Exception where
  | Error (format : String) (args : List Int)
  | OSError (format : String) (args : List Int)
  deriving DecidableEq, Repr

/-! ## `LauncherCommon::VerifyGameBuild` -/

/-- The four bodies of the `switch` in `VerifyGameBuild`, named after the
comment each one carries (`// Crysis`, `// Crysis Wars`, `// Crysis Warhead`)
and `default`. -/
inductive SwitchArm where
  | Crysis
  | CrysisWars
  | CrysisWarhead
  | Default
  deriving DecidableEq, Repr

/-- The `case` labels of the `switch (gameBuild)` in `VerifyGameBuild`: which
body a build identifier selects. With `BUILD_64BIT` defined the label
`case 6527:` is compiled out. -/
def VerifyGameBuild.arm (BUILD_64BIT : Bool) (gameBuild : Int) : SwitchArm :=
  if gameBuild = 5767 ∨ gameBuild = 5879 ∨ gameBuild = 6115 ∨ gameBuild = 6156 then
    SwitchArm.Crysis
  else if (BUILD_64BIT = false ∧ gameBuild = 6527) ∨ gameBuild = 6566 ∨ gameBuild = 6586
      ∨ gameBuild = 6627 ∨ gameBuild = 6670 ∨ gameBuild = 6729 then
    SwitchArm.CrysisWars
  else if gameBuild = 687 ∨ gameBuild = 710 ∨ gameBuild = 711 then
    SwitchArm.CrysisWarhead
  else
    SwitchArm.Default

/-- The function `void LauncherCommon::VerifyGameBuild(int gameBuild)`: returns normally
(`ok ()`) or throws. -/
def VerifyGameBuild (BUILD_64BIT : Bool) (gameBuild : Int) : Except Exception Unit :=
  match VerifyGameBuild.arm BUILD_64BIT gameBuild with
  | SwitchArm.Crysis => Except.ok ()
  | SwitchArm.CrysisWars => Except.ok ()
  | SwitchArm.CrysisWarhead =>
      Except.error (Exception.Error "Crysis Warhead is not supported!" [])
  | SwitchArm.Default =>
      Except.error (Exception.Error "Unknown game build %d" [gameBuild])

/-! ## `LogBytes` -/

/-- The local table `char units[6][2]` of `LogBytes`. -/
def LogBytes.units : List String := ["K", "M", "G", "T", "P", "E"]

/-- The `for (int i = 0; i < 6 && bytes >= 1024; i++)` loop of `LogBytes`,
entered with the current `i`, `unit` and `bytes`; it yields the three
variables as they stand when the loop is left. The body reads `units[i]` only
under the guard `i < 6`, so the default of `getD` is never taken. -/
def LogBytes.loop (i : Nat) (unit : String) (bytes : Nat) : Nat × String × Nat :=
  if i < 6 ∧ bytes ≥ 1024 then
    LogBytes.loop (i + 1) (LogBytes.units.getD i "") (bytes / 1024)
  else
    (i, unit, bytes)
termination_by 6 - i
decreasing_by omega

/-- The function `static void LogBytes(const char* message, std::size_t bytes)`: the
arguments handed to `CryLogAlways("%s%u%s", ...)`, the middle one being
`static_cast<unsigned int>(bytes)`. -/
def LogBytes (message : String) (bytes : Nat) : String × Nat × String :=
  let r := LogBytes.loop 0 "" bytes
  (message, r.2.2 % 2 ^ 32, r.2.1)

/-! ## Environment, events and the procedure monad -/

/-- A `void*` (a module handle, a symbol address, an interface pointer); `0` is `NULL`. -/
abbrev Handle := Nat

/-- The patch and hook operations of `MemoryPatch.h` that `GameLauncher::PatchEngine`
calls, one constructor per function (`MemoryPatch::CryGame::DisableIntros` is
`CryGame_DisableIntros`, and so on). -/
inductive MemoryPatch.Op where
  | CryGame_DisableIntros
  | CryGame_CanJoinDX10Servers
  | CryGame_EnableDX10Menu
  | CryAction_AllowDX9ImmersiveMultiplayer
  | CryNetwork_EnablePreordered
  | CryNetwork_AllowSameCDKeys
  | CryNetwork_FixInternetConnect
  | CryNetwork_FixFileCheckCrash
  | CrySystem_RemoveSecuROM
  | CrySystem_AllowDX9VeryHighSpec
  | CrySystem_AllowMultipleInstances
  | CrySystem_DisableCrashHandler
  | CrySystem_FixCPUInfoOverflow
  | CrySystem_HookCPUDetect
  | CrySystem_HookError
  | CrySystem_HookLanguageInit
  | CrySystem_HookChangeUserPath
  | CryRenderD3D9_HookAdapterInfo
  | CryRenderD3D10_FixLowRefreshRateBug
  | CryRenderD3D10_HookAdapterInfo
  | CryRenderD3D10_HookInitAPI
  deriving DecidableEq, Repr

/-- The engine structure `SSystemInitParams`, with the members the launcher touches. `cmdLine` holds
the characters of the C string stored in the fixed-size member array. -/
structure SSystemInitParams where
  hInstance : Handle
  logFileName : String
  cmdLine : List Nat
  isDedicatedServer : Bool
  deriving DecidableEq, Repr

/-- The calls whose order and number the launch sequence is specified by, each
with the arguments it was made with. -/
inductive Event where
  | SetParamsCmdLine
  | CrashLoggerEnable
  | LoadDLL (name : String)
  | LoadCrysisWarheadEXE
  | GetGameBuild (pCrySystem : Handle)
  | VerifyGameBuild (gameBuild : Int)
  | MemoryPatch (op : MemoryPatch.Op) (pModule : Handle) (gameBuild : Int)
  | StartEngine (pCryGame : Handle)
  | FindSymbol (pModule : Handle) (name : String)
  | CreateGameStartup (entry : Handle)
  | Init (pGameStartup : Handle)
  | Run (pGameStartup : Handle)
  deriving DecidableEq, Repr

/-- Everything outside the two source files: the operating system, the command
line, the engine modules, and the launcher functions declared in headers whose
bodies are elsewhere (`LoadDLL`, `LoadCrysisWarheadEXE`, `IsCrysisWarhead`,
the `MemoryPatch` functions). Each is an arbitrary function of its arguments. -/
structure Env where
  /-- Whether the launcher is compiled with `BUILD_64BIT` defined. -/
  BUILD_64BIT : Bool
  /-- The value of `OS::CmdLine::Get()`, the characters before the terminating NUL. -/
  cmdLine : List Nat
  /-- The value of `sizeof params.cmdLine`. -/
  sizeofCmdLine : Nat
  /-- The function `OS::CmdLine::HasArg`. -/
  HasArg : String → Bool
  /-- The value of `OS::IsVistaOrLater()`. -/
  IsVistaOrLater : Bool
  /-- The value of `OS::EXE::Get()`. -/
  EXE_Get : Handle
  /-- The function `LauncherCommon::LoadDLL`: the handle, or the exception it throws. -/
  LoadDLL : String → Except Exception Handle
  /-- The function `LauncherCommon::LoadCrysisWarheadEXE`. -/
  LoadCrysisWarheadEXE : Except Exception Handle
  /-- The function `LauncherCommon::IsCrysisWarhead`. -/
  IsCrysisWarhead : Int → Bool
  /-- The function `OS::Module::Version::GetPatch`. -/
  Version_GetPatch : Handle → Int
  /-- The `MemoryPatch` functions: each returns, or throws. -/
  MemoryPatch : MemoryPatch.Op → Handle → Int → Except Exception Unit
  /-- The function `OS::Module::FindSymbol`. -/
  FindSymbol : Handle → String → Handle
  /-- The value returned by calling the function at an entry address
  (`IGameStartup::TEntryFunction`). -/
  TEntryFunction : Handle → Handle
  /-- The function `IGameStartup::Init`. -/
  Init : Handle → SSystemInitParams → Bool
  /-- The function `IGameStartup::Run`. -/
  Run : Handle → Int

/-- What a procedure leaves behind: its result (a value or the exception that
left it), the object state, and the calls it made, in order. -/
structure Outcome (σ α : Type) where
  result : Except Exception α
  state : σ
  trace : List Event

/-- A procedure over an object state `σ`. -/
def Proc (σ α : Type) : Type := σ → Outcome σ α

/-- Return a value: no call, no state change. -/
def Proc.pure {σ α : Type} (a : α) : Proc σ α := fun s => ⟨Except.ok a, s, []⟩

/-- Sequencing: an exception of the first part ends the procedure, keeping the
state and the trace reached so far. -/
def Proc.bind {σ α β : Type} (m : Proc σ α) (f : α → Proc σ β) : Proc σ β := fun s =>
  match (m s).result with
  | Except.ok a =>
      ⟨(f a (m s).state).result, (f a (m s).state).state, (m s).trace ++ (f a (m s).state).trace⟩
  | Except.error e => ⟨Except.error e, (m s).state, (m s).trace⟩

instance {σ : Type} : Monad (Proc σ) where
  pure := Proc.pure
  bind := Proc.bind

/-- A call: the event is recorded, then the call returns its value or throws. -/
def Proc.call {σ α : Type} (e : Event) (r : Except Exception α) : Proc σ α :=
  fun s => ⟨r, s, [e]⟩

/-- Record an event of a call that cannot fail. -/
def Proc.emit {σ : Type} (e : Event) : Proc σ Unit := fun s => ⟨Except.ok (), s, [e]⟩

/-- A `throw` statement. -/
def Proc.throw {σ α : Type} (e : Exception) : Proc σ α := fun s => ⟨Except.error e, s, []⟩

/-- Read the object state. -/
def Proc.get {σ : Type} : Proc σ σ := fun s => ⟨Except.ok s, s, []⟩

/-- An assignment to the object state. -/
def Proc.modify {σ : Type} (f : σ → σ) : Proc σ Unit := fun s => ⟨Except.ok (), f s, []⟩

/-! ## `LauncherCommon` -/

/-- The function `int LauncherCommon::GetGameBuild(void* pCrySystem)`. -/
def GetGameBuild (env : Env) (pCrySystem : Handle) : Except Exception Int :=
  let gameBuild := env.Version_GetPatch pCrySystem
  if gameBuild < 0 then
    Except.error (Exception.OSError "Failed to get the game version!" [])
  else
    Except.ok gameBuild

/-- The function `void LauncherCommon::SetParamsCmdLine(SSystemInitParams& params, const char* cmdLine)`:
the updated `params`, or the exception. -/
def SetParamsCmdLine (env : Env) (params : SSystemInitParams) (cmdLine : List Nat) :
    Except Exception SSystemInitParams :=
  let length := cmdLine.length
  if length ≥ env.sizeofCmdLine then
    Except.error (Exception.Error "Command line is too long!" [])
  else
    Except.ok { params with cmdLine := cmdLine }

/-- The function `IGameStartup* LauncherCommon::StartEngine(void* pCryGame, SSystemInitParams& params)`. -/
def StartEngine {σ : Type} (env : Env) (pCryGame : Handle) (params : SSystemInitParams) :
    Proc σ Handle := do
  Proc.emit (Event.FindSymbol pCryGame "CreateGameStartup")
  let entry := env.FindSymbol pCryGame "CreateGameStartup"
  if entry = 0 then
    Proc.throw (Exception.Error "The CryGame DLL is not valid!" [])
  else
    Proc.emit (Event.CreateGameStartup entry)
    let pGameStartup := env.TEntryFunction entry
    if pGameStartup = 0 then
      Proc.throw (Exception.Error "Failed to create the GameStartup Interface!" [])
    else
      Proc.emit (Event.Init pGameStartup)
      if env.Init pGameStartup params = false then
        Proc.throw (Exception.Error "Game initialization failed!" [])
      else
        pure pGameStartup

/-! ## `GameLauncher` -/

/-- The `m_dlls` member of `GameLauncher`, with the members the two functions
`LoadEngine` and `PatchEngine` use. -/
structure DLLs where
  pEXE : Handle
  pCrySystem : Handle
  pCryGame : Handle
  pCryAction : Handle
  pCryNetwork : Handle
  pCryRenderD3D9 : Handle
  pCryRenderD3D10 : Handle
  gameBuild : Int
  isWarhead : Bool
  deriving DecidableEq, Repr

/-- The data members of `GameLauncher`. -/
structure GameLauncher where
  m_pGameStartup : Handle
  m_params : SSystemInitParams
  m_dlls : DLLs
  deriving DecidableEq, Repr

/-- Modelled from the spec: the declarations of `GameLauncher`, of its `m_dlls`
member and of `SSystemInitParams` (`GameLauncher.h`, `ISystem.h`) are not among
the sources. The constructor `GameLauncher() : m_pGameStartup(NULL), m_params(),
m_dlls()` value-initialises both aggregates, which is taken to leave every
handle `NULL`, every flag `false` and every number `0`. -/
def GameLauncher.new : GameLauncher :=
  { m_pGameStartup := 0
    m_params := { hInstance := 0, logFileName := "", cmdLine := [], isDedicatedServer := false }
    m_dlls :=
      { pEXE := 0, pCrySystem := 0, pCryGame := 0, pCryAction := 0, pCryNetwork := 0
        pCryRenderD3D9 := 0, pCryRenderD3D10 := 0, gameBuild := 0, isWarhead := false } }

/-- An assignment to a member of `m_dlls`. -/
def setDLLs (f : DLLs → DLLs) : Proc GameLauncher Unit :=
  Proc.modify fun l => { l with m_dlls := f l.m_dlls }

/-- An assignment to a member of `m_params`. -/
def setParams (f : SSystemInitParams → SSystemInitParams) : Proc GameLauncher Unit :=
  Proc.modify fun l => { l with m_params := f l.m_params }

/-- A call of `LauncherCommon::LoadDLL(name)`. -/
def LoadDLL {σ : Type} (env : Env) (name : String) : Proc σ Handle :=
  Proc.call (Event.LoadDLL name) (env.LoadDLL name)

/-- A call of `LauncherCommon::LoadCrysisWarheadEXE()`. -/
def LoadCrysisWarheadEXE {σ : Type} (env : Env) : Proc σ Handle :=
  Proc.call Event.LoadCrysisWarheadEXE env.LoadCrysisWarheadEXE

/-- A call of one `MemoryPatch` function on a module. The handler argument of
the hooks is a fixed function address and is left out. -/
def MemoryPatch {σ : Type} (env : Env) (op : MemoryPatch.Op) (pModule : Handle)
    (gameBuild : Int) : Proc σ Unit :=
  Proc.call (Event.MemoryPatch op pModule gameBuild) (env.MemoryPatch op pModule gameBuild)

open MemoryPatch.Op

/-- An `if (c) { body }` statement that has no `else`. -/
def Proc.ifThen {σ : Type} (c : Bool) (body : Proc σ Unit) : Proc σ Unit :=
  if c then body else pure ()

/-- The function `void GameLauncher::LoadEngine()`. -/
def GameLauncher.LoadEngine (env : Env) : Proc GameLauncher Unit := do
  let pCrySystem ← LoadDLL env "CrySystem.dll"
  setDLLs fun d => { d with pCrySystem := pCrySystem }
  let gameBuild ← Proc.call (Event.GetGameBuild pCrySystem) (GetGameBuild env pCrySystem)
  setDLLs fun d => { d with gameBuild := gameBuild }
  setDLLs fun d => { d with isWarhead := env.IsCrysisWarhead gameBuild }
  Proc.call (Event.VerifyGameBuild gameBuild) (VerifyGameBuild env.BUILD_64BIT gameBuild)
  let self ← Proc.get
  (if self.m_dlls.isWarhead then do
    let pEXE ← LoadCrysisWarheadEXE env
    setDLLs fun d => { d with pEXE := pEXE }
  else do
    let pCryGame ← LoadDLL env "CryGame.dll"
    setDLLs fun d => { d with pCryGame := pCryGame }
    let pCryAction ← LoadDLL env "CryAction.dll"
    setDLLs fun d => { d with pCryAction := pCryAction })
  let pCryNetwork ← LoadDLL env "CryNetwork.dll"
  setDLLs fun d => { d with pCryNetwork := pCryNetwork }
  let self ← Proc.get
  Proc.ifThen (!self.m_params.isDedicatedServer && !env.HasArg "-dedicated") do
    if !env.HasArg "-dx9" && (env.HasArg "-dx10" || env.IsVistaOrLater) then
      let pCryRenderD3D10 ← LoadDLL env "CryRenderD3D10.dll"
      setDLLs fun d => { d with pCryRenderD3D10 := pCryRenderD3D10 }
    else
      let pCryRenderD3D9 ← LoadDLL env "CryRenderD3D9.dll"
      setDLLs fun d => { d with pCryRenderD3D9 := pCryRenderD3D9 }

/-- The function `void GameLauncher::PatchEngine()`. -/
def GameLauncher.PatchEngine (env : Env) : Proc GameLauncher Unit := do
  let patchIntros := !env.HasArg "-splash"
  let m_dlls := (← Proc.get).m_dlls
  Proc.ifThen (m_dlls.isWarhead && m_dlls.pEXE != 0) do
    Proc.ifThen patchIntros do
      MemoryPatch env CryGame_DisableIntros m_dlls.pEXE m_dlls.gameBuild
    MemoryPatch env CryAction_AllowDX9ImmersiveMultiplayer m_dlls.pEXE m_dlls.gameBuild
  Proc.ifThen (m_dlls.pCryGame != 0) do
    MemoryPatch env CryGame_CanJoinDX10Servers m_dlls.pCryGame m_dlls.gameBuild
    MemoryPatch env CryGame_EnableDX10Menu m_dlls.pCryGame m_dlls.gameBuild
    Proc.ifThen patchIntros do
      MemoryPatch env CryGame_DisableIntros m_dlls.pCryGame m_dlls.gameBuild
  Proc.ifThen (m_dlls.pCryAction != 0) do
    MemoryPatch env CryAction_AllowDX9ImmersiveMultiplayer m_dlls.pCryAction m_dlls.gameBuild
  Proc.ifThen (m_dlls.pCryNetwork != 0) do
    MemoryPatch env CryNetwork_EnablePreordered m_dlls.pCryNetwork m_dlls.gameBuild
    MemoryPatch env CryNetwork_AllowSameCDKeys m_dlls.pCryNetwork m_dlls.gameBuild
    MemoryPatch env CryNetwork_FixInternetConnect m_dlls.pCryNetwork m_dlls.gameBuild
    MemoryPatch env CryNetwork_FixFileCheckCrash m_dlls.pCryNetwork m_dlls.gameBuild
  Proc.ifThen (m_dlls.pCrySystem != 0) do
    MemoryPatch env CrySystem_RemoveSecuROM m_dlls.pCrySystem m_dlls.gameBuild
    MemoryPatch env CrySystem_AllowDX9VeryHighSpec m_dlls.pCrySystem m_dlls.gameBuild
    MemoryPatch env CrySystem_AllowMultipleInstances m_dlls.pCrySystem m_dlls.gameBuild
    MemoryPatch env CrySystem_DisableCrashHandler m_dlls.pCrySystem m_dlls.gameBuild
    MemoryPatch env CrySystem_FixCPUInfoOverflow m_dlls.pCrySystem m_dlls.gameBuild
    MemoryPatch env CrySystem_HookCPUDetect m_dlls.pCrySystem m_dlls.gameBuild
    MemoryPatch env CrySystem_HookError m_dlls.pCrySystem m_dlls.gameBuild
    MemoryPatch env CrySystem_HookLanguageInit m_dlls.pCrySystem m_dlls.gameBuild
    MemoryPatch env CrySystem_HookChangeUserPath m_dlls.pCrySystem m_dlls.gameBuild
  Proc.ifThen (m_dlls.pCryRenderD3D9 != 0) do
    MemoryPatch env CryRenderD3D9_HookAdapterInfo m_dlls.pCryRenderD3D9 m_dlls.gameBuild
  Proc.ifThen (m_dlls.pCryRenderD3D10 != 0) do
    MemoryPatch env CryRenderD3D10_FixLowRefreshRateBug m_dlls.pCryRenderD3D10 m_dlls.gameBuild
    MemoryPatch env CryRenderD3D10_HookAdapterInfo m_dlls.pCryRenderD3D10 m_dlls.gameBuild
    MemoryPatch env CryRenderD3D10_HookInitAPI m_dlls.pCryRenderD3D10 m_dlls.gameBuild

/-- The function `int GameLauncher::Run()`. -/
def GameLauncher.Run (env : Env) : Proc GameLauncher Int := do
  setParams fun p => { p with hInstance := env.EXE_Get }
  setParams fun p => { p with logFileName := "Game.log" }
  let params ← Proc.call Event.SetParamsCmdLine
    (SetParamsCmdLine env (← Proc.get).m_params env.cmdLine)
  setParams fun _ => params
  Proc.emit Event.CrashLoggerEnable
  GameLauncher.LoadEngine env
  GameLauncher.PatchEngine env
  let self ← Proc.get
  Proc.emit (Event.StartEngine (if self.m_dlls.isWarhead then self.m_dlls.pEXE else self.m_dlls.pCryGame))
  let pGameStartup ← StartEngine env
    (if self.m_dlls.isWarhead then self.m_dlls.pEXE else self.m_dlls.pCryGame) self.m_params
  Proc.modify fun l => { l with m_pGameStartup := pGameStartup }
  Proc.emit (Event.Run pGameStartup)
  pure (env.Run pGameStartup)

/-! ## `InitD3D10` -/

/-- The structure `MemoryPatch::CryRenderD3D10::API`, the table `InitD3D10` fills. -/
structure API where
  pD3D10 : Handle
  pD3D10CreateDevice : Handle
  pDXGI : Handle
  pCreateDXGIFactory : Handle
  deriving DecidableEq, Repr

/-- The two operating-system calls `InitD3D10` makes: `OS::DLL::Load` and
`OS::DLL::FindSymbol`, each returning `NULL` (`0`) on failure. -/
structure DLL where
  Load : String → Handle
  FindSymbol : Handle → String → Handle

/-- The function `static bool InitD3D10(MemoryPatch::CryRenderD3D10::API* api)`: the returned
flag and the table as it stands on return. -/
def InitD3D10 (os : DLL) (api : API) : Bool × API :=
  let d3d10 := os.Load "d3d10.dll"
  if d3d10 = 0 then
    (false, api)
  else
    let api := { api with pD3D10 := d3d10 }
    let api := { api with pD3D10CreateDevice := os.FindSymbol d3d10 "D3D10CreateDevice" }
    let dxgi := os.Load "dxgi.dll"
    if dxgi = 0 then
      (false, api)
    else
      let api := { api with pDXGI := dxgi }
      let api := { api with pCreateDXGIFactory := os.FindSymbol dxgi "CreateDXGIFactory" }
      (true, api)

/-! ## Vocabulary of the launch-sequence properties -/

/-- A module-load call: `LoadDLL(...)` or `LoadCrysisWarheadEXE()`. -/
def Event.isModuleLoad : Event → Bool
  | Event.LoadDLL _ => true
  | Event.LoadCrysisWarheadEXE => true
  | _ => false

/-- A module-load call other than the one of `CrySystem.dll`. -/
def Event.isLaterLoad (e : Event) : Bool :=
  e.isModuleLoad && e != Event.LoadDLL "CrySystem.dll"

/-- A call that resolves or verifies the build: `GetGameBuild` or `VerifyGameBuild`. -/
def Event.isBuildCheck : Event → Bool
  | Event.GetGameBuild _ => true
  | Event.VerifyGameBuild _ => true
  | _ => false

/-- A call of a `MemoryPatch` patch or hook function. -/
def Event.isPatch : Event → Bool
  | Event.MemoryPatch _ _ _ => true
  | _ => false

/-- The patch or hook function an event is a call of, if it is one. -/
def Event.patchOp : Event → Option MemoryPatch.Op
  | Event.MemoryPatch op _ _ => some op
  | _ => none

/-- The entry into `StartEngine` and everything done from there on: the symbol
lookup, the call of the `CreateGameStartup` entry function, `Init` and `Run`. -/
def Event.isEngineStart : Event → Bool
  | Event.StartEngine _ => true
  | Event.FindSymbol _ _ => true
  | Event.CreateGameStartup _ => true
  | Event.Init _ => true
  | Event.Run _ => true
  | _ => false

/-- In the trace `t`, every call satisfying `P` comes before every call satisfying `Q`. -/
def Precedes (P Q : Event → Bool) (t : List Event) : Prop :=
  ∀ (i j : Nat) (a b : Event), t[i]? = some a → t[j]? = some b → P a = true → Q b = true → i < j

/-- The stage of the launch sequence a call belongs to. -/
def Event.phase : Event → Nat
  | Event.SetParamsCmdLine => 0
  | Event.CrashLoggerEnable => 0
  | Event.LoadDLL name => if name = "CrySystem.dll" then 1 else 4
  | Event.GetGameBuild _ => 2
  | Event.VerifyGameBuild _ => 3
  | Event.LoadCrysisWarheadEXE => 4
  | Event.MemoryPatch _ _ _ => 5
  | Event.StartEngine _ => 6
  | Event.FindSymbol _ _ => 7
  | Event.CreateGameStartup _ => 8
  | Event.Init _ => 9
  | Event.Run _ => 10

/-- A trace whose calls never go back to an earlier stage. -/
def Staged (t : List Event) : Prop := t.Pairwise fun a b => a.phase ≤ b.phase

/-- A procedure all of whose traces are staged and stay within the stages `lo..hi`. -/
def Proc.Ordered {σ α : Type} (lo hi : Nat) (m : Proc σ α) : Prop :=
  ∀ s, Staged (m s).trace ∧ ∀ e ∈ (m s).trace, lo ≤ e.phase ∧ e.phase ≤ hi

/-- An outcome reached after the calls `t` were already made. -/
def Outcome.after {σ α : Type} (t : List Event) (o : Outcome σ α) : Outcome σ α :=
  ⟨o.result, o.state, t ++ o.trace⟩

/-- The ordering the launch sequence is claimed to have: every module load
before the build is resolved and verified, and that before every patch or hook. -/
def LoadsThenBuildCheckThenPatches (t : List Event) : Prop :=
  Precedes Event.isModuleLoad Event.isBuildCheck t ∧ Precedes Event.isBuildCheck Event.isPatch t

/-- A run of an unmodified base-game installation: build 6156, every module
loads, every patch applies, the engine starts. -/
def env6156 : Env :=
  { BUILD_64BIT := false
    cmdLine := []
    sizeofCmdLine := 2048
    HasArg := fun _ => false
    IsVistaOrLater := true
    EXE_Get := 1
    LoadDLL := fun name =>
      Except.ok (if name = "CrySystem.dll" then 2 else if name = "CryGame.dll" then 3
        else if name = "CryAction.dll" then 4 else if name = "CryNetwork.dll" then 5 else 6)
    LoadCrysisWarheadEXE := Except.ok 7
    IsCrysisWarhead := fun _ => false
    Version_GetPatch := fun _ => 6156
    MemoryPatch := fun _ _ _ => Except.ok ()
    FindSymbol := fun _ _ => 10
    TEntryFunction := fun _ => 11
    Init := fun _ _ => true
    Run := fun _ => 0 }

/-- The last two statements of `GameLauncher::Run`, from the `StartEngine` call on. -/
def GameLauncher.Run.start (env : Env) : Proc GameLauncher Int := do
  let self ← Proc.get
  Proc.emit (Event.StartEngine (if self.m_dlls.isWarhead then self.m_dlls.pEXE else self.m_dlls.pCryGame))
  let pGameStartup ← StartEngine env
    (if self.m_dlls.isWarhead then self.m_dlls.pEXE else self.m_dlls.pCryGame) self.m_params
  Proc.modify fun l => { l with m_pGameStartup := pGameStartup }
  Proc.emit (Event.Run pGameStartup)
  pure (env.Run pGameStartup)

/-- The launcher object when `GameLauncher::Run` reaches `LoadEngine`: `m_params`
holds the instance handle, the log file name and the command line. -/
def GameLauncher.Run.entered (env : Env) (s : GameLauncher) : GameLauncher :=
  { s with
    m_params :=
      { hInstance := env.EXE_Get, logFileName := "Game.log", cmdLine := env.cmdLine
        isDedicatedServer := s.m_params.isDedicatedServer } }

/-- A call that returned normally: for a `MemoryPatch` call, the patch function
did not throw; every other call counts as returned. -/
def Event.Returned (env : Env) : Event → Prop
  | Event.MemoryPatch op pModule gameBuild => env.MemoryPatch op pModule gameBuild = Except.ok ()
  | _ => True

/-- A procedure that returns normally only if every call it made returned normally. -/
def Proc.AllReturned {σ α : Type} (env : Env) (m : Proc σ α) : Prop :=
  ∀ s a, (m s).result = Except.ok a → ∀ e ∈ (m s).trace, e.Returned env

/-- A procedure whose trace is always drawn, in order, from the list `L`. -/
def Proc.Within {σ α : Type} (L : List Event) (m : Proc σ α) : Prop :=
  ∀ s, List.Sublist (m s).trace L

/-- At most one of `pEXE` and the pair `pCryGame`, `pCryAction` is set. -/
def DLLs.ExeOrGame (d : DLLs) : Prop :=
  d.pEXE = 0 ∨ (d.pCryGame = 0 ∧ d.pCryAction = 0)

/-- The calls `GameLauncher::PatchEngine` makes on the modules `d` when none of
them throws, block by block as the function is written. -/
def GameLauncher.PatchEngine.calls (patchIntros : Bool) (d : DLLs) : List Event :=
  (if d.isWarhead && d.pEXE != 0 then
      (if patchIntros then [Event.MemoryPatch CryGame_DisableIntros d.pEXE d.gameBuild] else [])
        ++ [Event.MemoryPatch CryAction_AllowDX9ImmersiveMultiplayer d.pEXE d.gameBuild]
    else [])
  ++ ((if d.pCryGame != 0 then
      [Event.MemoryPatch CryGame_CanJoinDX10Servers d.pCryGame d.gameBuild]
        ++ ([Event.MemoryPatch CryGame_EnableDX10Menu d.pCryGame d.gameBuild]
        ++ (if patchIntros then [Event.MemoryPatch CryGame_DisableIntros d.pCryGame d.gameBuild]
            else []))
    else [])
  ++ ((if d.pCryAction != 0 then
      [Event.MemoryPatch CryAction_AllowDX9ImmersiveMultiplayer d.pCryAction d.gameBuild]
    else [])
  ++ ((if d.pCryNetwork != 0 then
      [Event.MemoryPatch CryNetwork_EnablePreordered d.pCryNetwork d.gameBuild]
        ++ ([Event.MemoryPatch CryNetwork_AllowSameCDKeys d.pCryNetwork d.gameBuild]
        ++ ([Event.MemoryPatch CryNetwork_FixInternetConnect d.pCryNetwork d.gameBuild]
        ++ [Event.MemoryPatch CryNetwork_FixFileCheckCrash d.pCryNetwork d.gameBuild]))
    else [])
  ++ ((if d.pCrySystem != 0 then
      [Event.MemoryPatch CrySystem_RemoveSecuROM d.pCrySystem d.gameBuild]
        ++ ([Event.MemoryPatch CrySystem_AllowDX9VeryHighSpec d.pCrySystem d.gameBuild]
        ++ ([Event.MemoryPatch CrySystem_AllowMultipleInstances d.pCrySystem d.gameBuild]
        ++ ([Event.MemoryPatch CrySystem_DisableCrashHandler d.pCrySystem d.gameBuild]
        ++ ([Event.MemoryPatch CrySystem_FixCPUInfoOverflow d.pCrySystem d.gameBuild]
        ++ ([Event.MemoryPatch CrySystem_HookCPUDetect d.pCrySystem d.gameBuild]
        ++ ([Event.MemoryPatch CrySystem_HookError d.pCrySystem d.gameBuild]
        ++ ([Event.MemoryPatch CrySystem_HookLanguageInit d.pCrySystem d.gameBuild]
        ++ [Event.MemoryPatch CrySystem_HookChangeUserPath d.pCrySystem d.gameBuild])))))))
    else [])
  ++ ((if d.pCryRenderD3D9 != 0 then
      [Event.MemoryPatch CryRenderD3D9_HookAdapterInfo d.pCryRenderD3D9 d.gameBuild]
    else [])
  ++ (if d.pCryRenderD3D10 != 0 then
      [Event.MemoryPatch CryRenderD3D10_FixLowRefreshRateBug d.pCryRenderD3D10 d.gameBuild]
        ++ ([Event.MemoryPatch CryRenderD3D10_HookAdapterInfo d.pCryRenderD3D10 d.gameBuild]
        ++ [Event.MemoryPatch CryRenderD3D10_HookInitAPI d.pCryRenderD3D10 d.gameBuild])
    else []))))))

/-- From any state satisfying `P`, the procedure ends (normally or by an
exception) in a state satisfying `Q`. -/
def Proc.Maintains {σ α : Type} (P Q : σ → Prop) (m : Proc σ α) : Prop :=
  ∀ s, P s → Q (m s).state

/-- Neither `pEXE` nor `pCryGame` nor `pCryAction` is set. -/
def GameLauncher.NoGameModule (s : GameLauncher) : Prop :=
  s.m_dlls.pEXE = 0 ∧ s.m_dlls.pCryGame = 0 ∧ s.m_dlls.pCryAction = 0

/-- A call made on a loaded module: a `MemoryPatch` call whose module handle is not `NULL`. -/
def Event.OnLoadedModule : Event → Prop
  | Event.MemoryPatch _ pModule _ => pModule ≠ 0
  | _ => False

/-- A procedure all of whose calls satisfy `P`. -/
def Proc.Only {σ α : Type} (P : Event → Prop) (m : Proc σ α) : Prop :=
  ∀ s, ∀ e ∈ (m s).trace, P e

/-- A call of the patch or hook function `op` on the module `pModule`. -/
def Event.isCallOn (op : MemoryPatch.Op) (pModule : Handle) : Event → Bool
  | Event.MemoryPatch o p _ => decide (o = op ∧ p = pModule)
  | _ => false

/-- All four fields of the API table are non-null. -/
def API.AllResolved (api : API) : Prop :=
  api.pD3D10 ≠ 0 ∧ api.pD3D10CreateDevice ≠ 0 ∧ api.pDXGI ≠ 0 ∧ api.pCreateDXGIFactory ≠ 0

/-- A system on which both libraries load (at the addresses 1 and 2) but export
neither `D3D10CreateDevice` nor `CreateDXGIFactory`. -/
def dllWithoutSymbols : DLL :=
  { Load := fun name => if name = "d3d10.dll" then 1 else 2
    FindSymbol := fun _ _ => 0 }

/-- An API table with every field `NULL`. -/
def API.null : API :=
  { pD3D10 := 0, pD3D10CreateDevice := 0, pDXGI := 0, pCreateDXGIFactory := 0 }

/-- An installation whose `CrySystem.dll` reports the build 9999. -/
def env9999 : Env := { env6156 with Version_GetPatch := fun _ => 9999 }

/-! ## The procedure monad: unfolding lemmas -/

theorem Proc.bind_def {σ α β : Type} (m : Proc σ α) (f : α → Proc σ β) :
    (m >>= f) = Proc.bind m f := rfl

theorem Proc.pure_def {σ α : Type} (a : α) : (pure a : Proc σ α) = Proc.pure a := rfl

theorem Outcome.after_result {σ α : Type} (t : List Event) (o : Outcome σ α) :
    (o.after t).result = o.result := rfl

theorem Outcome.after_state {σ α : Type} (t : List Event) (o : Outcome σ α) :
    (o.after t).state = o.state := rfl

theorem Outcome.after_trace {σ α : Type} (t : List Event) (o : Outcome σ α) :
    (o.after t).trace = t ++ o.trace := rfl

theorem Proc.bind_eq {σ α β : Type} (m : Proc σ α) (f : α → Proc σ β) (s : σ) :
    Proc.bind m f s =
      match (m s).result with
      | Except.ok a => (f a (m s).state).after (m s).trace
      | Except.error e => ⟨Except.error e, (m s).state, (m s).trace⟩ := by
  unfold Proc.bind Outcome.after
  cases (m s).result <;> rfl

theorem Proc.bind_ok {σ α β : Type} (m : Proc σ α) (f : α → Proc σ β) (s : σ) (a : α)
    (h : (m s).result = Except.ok a) :
    Proc.bind m f s = (f a (m s).state).after (m s).trace := by
  rw [Proc.bind_eq, h]

theorem Proc.bind_error {σ α β : Type} (m : Proc σ α) (f : α → Proc σ β) (s : σ)
    (e : Exception) (h : (m s).result = Except.error e) :
    Proc.bind m f s = ⟨Except.error e, (m s).state, (m s).trace⟩ := by
  rw [Proc.bind_eq, h]

theorem Proc.call_bind {σ α β : Type} (e : Event) (r : Except Exception α) (f : α → Proc σ β)
    (s : σ) :
    Proc.bind (Proc.call e r) f s =
      match r with
      | Except.ok a => (f a s).after [e]
      | Except.error x => ⟨Except.error x, s, [e]⟩ := by
  cases r <;> rfl

theorem Proc.emit_bind {σ β : Type} (e : Event) (f : Unit → Proc σ β) (s : σ) :
    Proc.bind (Proc.emit e) f s = (f () s).after [e] := rfl

theorem Proc.modify_bind {σ β : Type} (g : σ → σ) (f : Unit → Proc σ β) (s : σ) :
    Proc.bind (Proc.modify g) f s = f () (g s) := rfl

theorem Proc.get_bind {σ β : Type} (f : σ → Proc σ β) (s : σ) :
    Proc.bind Proc.get f s = f s s := rfl

/-! ## Staging of the calls -/

theorem Proc.Ordered_bind {σ α β : Type} {lo hi : Nat} (k : Nat) {m : Proc σ α}
    {f : α → Proc σ β} (hm : Proc.Ordered lo k m) (hf : ∀ a, Proc.Ordered k hi (f a))
    (h1 : lo ≤ k) (h2 : k ≤ hi) : Proc.Ordered lo hi (m >>= f) := by
  intro s
  rw [Proc.bind_def]
  unfold Proc.bind
  obtain ⟨hs, hb⟩ := hm s
  cases hr : (m s).result with
  | error e =>
    refine ⟨hs, fun e he => ?_⟩
    have := hb e he
    omega
  | ok a =>
    obtain ⟨hs2, hb2⟩ := hf a (m s).state
    refine ⟨?_, fun e he => ?_⟩
    · show Staged (_ ++ _)
      unfold Staged at *
      rw [List.pairwise_append]
      refine ⟨hs, hs2, fun x hx y hy => ?_⟩
      have := hb x hx
      have := hb2 y hy
      omega
    · rcases List.mem_append.1 he with h | h
      · have := hb e h; omega
      · have := hb2 e h; omega

theorem Proc.Ordered.silent {σ α : Type} {lo hi : Nat} {m : Proc σ α}
    (h : ∀ s, (m s).trace = []) : Proc.Ordered lo hi m := by
  intro s
  rw [h s]
  exact ⟨List.Pairwise.nil, fun e he => by simp at he⟩

theorem Proc.Ordered.single {σ α : Type} {lo hi : Nat} {m : Proc σ α} (e : Event)
    (h : ∀ s, (m s).trace = [e]) (h1 : lo ≤ e.phase) (h2 : e.phase ≤ hi) :
    Proc.Ordered lo hi m := by
  intro s
  rw [h s]
  refine ⟨List.pairwise_singleton _ _, fun x hx => ?_⟩
  rw [List.mem_singleton] at hx
  subst hx
  exact ⟨h1, h2⟩

theorem Proc.Ordered_ite {σ α : Type} {lo hi : Nat} {c : Prop} [Decidable c] {a b : Proc σ α}
    (ha : Proc.Ordered lo hi a) (hb : Proc.Ordered lo hi b) :
    Proc.Ordered lo hi (if c then a else b) := by
  split <;> assumption

theorem Proc.Ordered_ifThen {σ : Type} {lo hi : Nat} {c : Bool} {a : Proc σ Unit}
    (ha : Proc.Ordered lo hi a) : Proc.Ordered lo hi (Proc.ifThen c a) := by
  unfold Proc.ifThen
  split
  · exact ha
  · exact Proc.Ordered.silent fun _ => rfl

theorem Proc.Ordered_pure {σ α : Type} {lo hi : Nat} (a : α) :
    Proc.Ordered lo hi (Pure.pure a : Proc σ α) := Proc.Ordered.silent fun _ => rfl

theorem Proc.Ordered.throw {σ α : Type} {lo hi : Nat} (e : Exception) :
    Proc.Ordered lo hi (Proc.throw e : Proc σ α) := Proc.Ordered.silent fun _ => rfl

theorem Proc.Ordered_get {σ : Type} {lo hi : Nat} :
    Proc.Ordered lo hi (Proc.get : Proc σ σ) := Proc.Ordered.silent fun _ => rfl

theorem Proc.Ordered_modify {σ : Type} {lo hi : Nat} (f : σ → σ) :
    Proc.Ordered lo hi (Proc.modify f) := Proc.Ordered.silent fun _ => rfl

theorem Proc.Ordered_call {σ α : Type} {lo hi : Nat} (e : Event) (r : Except Exception α)
    (h1 : lo ≤ e.phase) (h2 : e.phase ≤ hi) : Proc.Ordered lo hi (Proc.call e r : Proc σ α) :=
  Proc.Ordered.single e (fun _ => rfl) h1 h2

theorem Proc.Ordered.emit {σ : Type} {lo hi : Nat} (e : Event)
    (h1 : lo ≤ e.phase) (h2 : e.phase ≤ hi) : Proc.Ordered lo hi (Proc.emit e : Proc σ Unit) :=
  Proc.Ordered.single e (fun _ => rfl) h1 h2

theorem Proc.Ordered.mono {σ α : Type} {lo hi lo2 hi2 : Nat} {m : Proc σ α}
    (h : Proc.Ordered lo hi m) (h1 : lo2 ≤ lo) (h2 : hi ≤ hi2) : Proc.Ordered lo2 hi2 m := by
  intro s
  refine ⟨(h s).1, fun e he => ?_⟩
  have := (h s).2 e he
  omega

theorem MemoryPatch_ordered {σ : Type} (env : Env) (op : MemoryPatch.Op) (h : Handle) (b : Int) :
    Proc.Ordered 5 5 (MemoryPatch env op h b : Proc σ Unit) :=
  Proc.Ordered.single _ (fun _ => rfl) (le_refl _) (le_refl _)

theorem PatchEngine_ordered (env : Env) : Proc.Ordered 5 5 (GameLauncher.PatchEngine env) := by
  unfold GameLauncher.PatchEngine
  refine Proc.Ordered_bind 5 Proc.Ordered_get (fun self => ?_) (le_refl _) (le_refl _)
  repeat' with_reducible first
    | exact MemoryPatch_ordered _ _ _ _
    | exact Proc.Ordered_pure _
    | apply Proc.Ordered_ifThen
    | refine Proc.Ordered_bind 5 ?_ (fun _ => ?_) (le_refl _) (le_refl _)

theorem LoadEngine_ordered (env : Env) : Proc.Ordered 1 4 (GameLauncher.LoadEngine env) := by
  unfold GameLauncher.LoadEngine LoadDLL LoadCrysisWarheadEXE setDLLs
  refine Proc.Ordered_bind 1 (Proc.Ordered_call _ _ (by simp [Event.phase]) (by simp [Event.phase])) (fun _ => ?_)
    (by simp [Event.phase]) (by simp [Event.phase])
  refine Proc.Ordered_bind 1 (Proc.Ordered_modify _) (fun _ => ?_) (by simp [Event.phase]) (by simp [Event.phase])
  refine Proc.Ordered_bind 2 (Proc.Ordered_call _ _ (by simp [Event.phase]) (by simp [Event.phase])) (fun _ => ?_)
    (by simp [Event.phase]) (by simp [Event.phase])
  refine Proc.Ordered_bind 2 (Proc.Ordered_modify _) (fun _ => ?_) (by simp [Event.phase]) (by simp [Event.phase])
  refine Proc.Ordered_bind 2 (Proc.Ordered_modify _) (fun _ => ?_) (by simp [Event.phase]) (by simp [Event.phase])
  refine Proc.Ordered_bind 3 (Proc.Ordered_call _ _ (by simp [Event.phase]) (by simp [Event.phase])) (fun _ => ?_)
    (by simp [Event.phase]) (by simp [Event.phase])
  refine Proc.Ordered_bind 4 Proc.Ordered_get (fun _ => ?_) (by simp [Event.phase]) (by simp [Event.phase])
  repeat' with_reducible first
    | exact Proc.Ordered_pure _
    | exact Proc.Ordered_get
    | exact Proc.Ordered_modify _
    | exact Proc.Ordered_call _ _ (by simp [Event.phase]) (by simp [Event.phase])
    | apply Proc.Ordered_ite
    | apply Proc.Ordered_ifThen
    | refine Proc.Ordered_bind 4 ?_ (fun _ => ?_) (le_refl _) (le_refl _)

theorem StartEngine_ordered {σ : Type} (env : Env) (h : Handle) (p : SSystemInitParams) :
    Proc.Ordered 7 9 (StartEngine env h p : Proc σ Handle) := by
  unfold StartEngine
  refine Proc.Ordered_bind 7 (Proc.Ordered.emit _ (by simp [Event.phase]) (by simp [Event.phase])) (fun _ => ?_)
    (by simp [Event.phase]) (by simp [Event.phase])
  refine Proc.Ordered_ite (Proc.Ordered.throw _) ?_
  refine Proc.Ordered_bind 8 (Proc.Ordered.emit _ (by simp [Event.phase]) (by simp [Event.phase])) (fun _ => ?_)
    (by simp [Event.phase]) (by simp [Event.phase])
  refine Proc.Ordered_ite (Proc.Ordered.throw _) ?_
  refine Proc.Ordered_bind 9 (Proc.Ordered.emit _ (by simp [Event.phase]) (by simp [Event.phase])) (fun _ => ?_)
    (by simp [Event.phase]) (by simp [Event.phase])
  exact Proc.Ordered_ite (Proc.Ordered.throw _) (Proc.Ordered_pure _)

theorem Run_ordered (env : Env) : Proc.Ordered 0 10 (GameLauncher.Run env) := by
  unfold GameLauncher.Run setParams
  refine Proc.Ordered_bind 0 (Proc.Ordered_modify _) (fun _ => ?_) (by simp [Event.phase]) (by simp [Event.phase])
  refine Proc.Ordered_bind 0 (Proc.Ordered_modify _) (fun _ => ?_) (by simp [Event.phase]) (by simp [Event.phase])
  refine Proc.Ordered_bind 0 Proc.Ordered_get (fun _ => ?_) (by simp [Event.phase]) (by simp [Event.phase])
  refine Proc.Ordered_bind 0 (Proc.Ordered_call _ _ (by simp [Event.phase]) (by simp [Event.phase])) (fun _ => ?_)
    (by simp [Event.phase]) (by simp [Event.phase])
  refine Proc.Ordered_bind 0 (Proc.Ordered_modify _) (fun _ => ?_) (by simp [Event.phase]) (by simp [Event.phase])
  refine Proc.Ordered_bind 0 (Proc.Ordered.emit _ (by simp [Event.phase]) (by simp [Event.phase])) (fun _ => ?_)
    (by simp [Event.phase]) (by simp [Event.phase])
  refine Proc.Ordered_bind 4 ((LoadEngine_ordered env).mono (by simp [Event.phase]) (by simp [Event.phase])) (fun _ => ?_)
    (by simp [Event.phase]) (by simp [Event.phase])
  refine Proc.Ordered_bind 5 ((PatchEngine_ordered env).mono (by simp [Event.phase]) (by simp [Event.phase])) (fun _ => ?_)
    (by simp [Event.phase]) (by simp [Event.phase])
  refine Proc.Ordered_bind 5 Proc.Ordered_get (fun _ => ?_) (by simp [Event.phase]) (by simp [Event.phase])
  refine Proc.Ordered_bind 6 (Proc.Ordered.emit _ (by simp [Event.phase]) (by simp [Event.phase])) (fun _ => ?_)
    (by simp [Event.phase]) (by simp [Event.phase])
  refine Proc.Ordered_bind 9 ((StartEngine_ordered env _ _).mono (by simp [Event.phase]) (by simp [Event.phase]))
    (fun _ => ?_) (by simp [Event.phase]) (by simp [Event.phase])
  refine Proc.Ordered_bind 9 (Proc.Ordered_modify _) (fun _ => ?_) (by simp [Event.phase]) (by simp [Event.phase])
  refine Proc.Ordered_bind 10 (Proc.Ordered.emit _ (by simp [Event.phase]) (by simp [Event.phase])) (fun _ => ?_)
    (by simp [Event.phase]) (by simp [Event.phase])
  exact Proc.Ordered_pure _

theorem Staged.lt_of_phase_lt {t : List Event} (ht : Staged t) {i j : Nat} {a b : Event}
    (ha : t[i]? = some a) (hb : t[j]? = some b) (hp : a.phase < b.phase) : i < j := by
  by_contra hij
  obtain ⟨hi, rfl⟩ := List.getElem?_eq_some.1 ha
  obtain ⟨hj, rfl⟩ := List.getElem?_eq_some.1 hb
  rcases Nat.lt_or_ge j i with h | h
  · have := (List.pairwise_iff_getElem.1 ht) j i hj hi h
    omega
  · have hji : j = i := by omega
    subst hji
    omega

theorem Staged.precedes {t : List Event} (ht : Staged t) (P Q : Event → Bool)
    (h : ∀ a b, P a = true → Q b = true → a.phase < b.phase) : Precedes P Q t :=
  by
  intro i j a b ha hb hP hQ
  exact ht.lt_of_phase_lt ha hb (h a b hP hQ)

/-! ## Failure of the build check -/

theorem phase_le_four (e : Event) (h : e.phase ≤ 4) :
    e.isPatch = false ∧ e.isEngineStart = false := by
  cases e <;> simp [Event.phase, Event.isPatch, Event.isEngineStart] at h ⊢

theorem LoadEngine_fails (env : Env) (s : GameLauncher) (h : Handle) (e : Exception)
    (hload : env.LoadDLL "CrySystem.dll" = Except.ok h)
    (hfail : GetGameBuild env h = Except.error e ∨
      ∃ b, GetGameBuild env h = Except.ok b ∧ VerifyGameBuild env.BUILD_64BIT b = Except.error e) :
    (GameLauncher.LoadEngine env s).result = Except.error e := by
  simp only [GameLauncher.LoadEngine, LoadDLL, setDLLs, Proc.bind_def, Proc.call_bind,
    Proc.modify_bind, hload]
  rcases hfail with hg | ⟨b, hg, hv⟩
  · simp only [Outcome.after_result, hg]
  · simp only [Outcome.after_result, hg, Proc.modify_bind, Proc.call_bind, hv]

theorem SetParamsCmdLine_ok (env : Env) (p : SSystemInitParams)
    (hcmd : env.cmdLine.length < env.sizeofCmdLine) :
    SetParamsCmdLine env p env.cmdLine = Except.ok { p with cmdLine := env.cmdLine } := by
  unfold SetParamsCmdLine
  simp only [ge_iff_le]
  rw [if_neg (by omega)]

theorem SetParamsCmdLine_error (env : Env) (p : SSystemInitParams)
    (hcmd : env.sizeofCmdLine ≤ env.cmdLine.length) :
    SetParamsCmdLine env p env.cmdLine
      = Except.error (Exception.Error "Command line is too long!" []) := by
  unfold SetParamsCmdLine
  simp only [ge_iff_le]
  rw [if_pos hcmd]

theorem Run_eq (env : Env) (s : GameLauncher) (hcmd : env.cmdLine.length < env.sizeofCmdLine) :
    GameLauncher.Run env s =
      (Proc.bind (GameLauncher.LoadEngine env)
        (fun _ => Proc.bind (GameLauncher.PatchEngine env) (fun _ => GameLauncher.Run.start env))
        (GameLauncher.Run.entered env s)).after [Event.SetParamsCmdLine, Event.CrashLoggerEnable] := by
  simp only [GameLauncher.Run, setParams, Proc.bind_def, Proc.modify_bind, Proc.get_bind,
    Proc.call_bind, Proc.emit_bind, SetParamsCmdLine_ok env _ hcmd]
  rfl

theorem Run_trace_too_long (env : Env) (s : GameLauncher)
    (hcmd : env.sizeofCmdLine ≤ env.cmdLine.length) :
    (GameLauncher.Run env s).trace = [Event.SetParamsCmdLine] := by
  simp only [GameLauncher.Run, setParams, Proc.bind_def, Proc.modify_bind, Proc.get_bind,
    Proc.call_bind, SetParamsCmdLine_error env _ hcmd]

theorem Run_result_too_long (env : Env) (s : GameLauncher)
    (hcmd : env.sizeofCmdLine ≤ env.cmdLine.length) :
    (GameLauncher.Run env s).result
      = Except.error (Exception.Error "Command line is too long!" []) := by
  simp only [GameLauncher.Run, setParams, Proc.bind_def, Proc.modify_bind, Proc.get_bind,
    Proc.call_bind, SetParamsCmdLine_error env _ hcmd]

theorem Run_build_check_fails (env : Env) (s : GameLauncher) (h : Handle) (e : Exception)
    (hcmd : env.cmdLine.length < env.sizeofCmdLine)
    (hload : env.LoadDLL "CrySystem.dll" = Except.ok h)
    (hfail : GetGameBuild env h = Except.error e ∨
      ∃ b, GetGameBuild env h = Except.ok b ∧ VerifyGameBuild env.BUILD_64BIT b = Except.error e) :
    (GameLauncher.Run env s).result = Except.error e ∧
      ∀ ev ∈ (GameLauncher.Run env s).trace, ev.isPatch = false ∧ ev.isEngineStart = false := by
  have hL := LoadEngine_fails env (GameLauncher.Run.entered env s) h e hload hfail
  rw [Run_eq env s hcmd, Proc.bind_error _ _ _ e hL]
  refine ⟨rfl, fun ev hev => ?_⟩
  simp only [Outcome.after_trace, List.mem_append, List.mem_cons, List.mem_singleton,
    List.not_mem_nil, or_false] at hev
  rcases hev with (rfl | rfl) | hev
  · exact ⟨rfl, rfl⟩
  · exact ⟨rfl, rfl⟩
  · exact phase_le_four ev ((LoadEngine_ordered env _).2 ev hev).2

/-! ## Patching is complete before the engine starts -/

theorem Proc.AllReturned_bind {σ α β : Type} {env : Env} {m : Proc σ α} {f : α → Proc σ β}
    (hm : Proc.AllReturned env m) (hf : ∀ a, Proc.AllReturned env (f a)) : Proc.AllReturned env (m >>= f) := by
  intro s b hb e he
  rw [Proc.bind_def] at hb he
  cases hr : (m s).result with
  | error x =>
    rw [Proc.bind_error _ _ _ x hr] at hb
    cases hb
  | ok a =>
    rw [Proc.bind_ok _ _ _ a hr] at hb he
    rw [Outcome.after_result] at hb
    rw [Outcome.after_trace] at he
    rcases List.mem_append.1 he with h | h
    · exact hm s a hr e h
    · exact hf a _ b hb e h

theorem Proc.AllReturned_pure {σ α : Type} {env : Env} (a : α) :
    Proc.AllReturned env (Pure.pure a : Proc σ α) :=
  fun _ _ _ e he => by cases he

theorem Proc.AllReturned_get {σ : Type} {env : Env} : Proc.AllReturned env (Proc.get : Proc σ σ) :=
  fun _ _ _ e he => by cases he

theorem Proc.AllReturned_ite {σ α : Type} {env : Env} {c : Prop} [Decidable c] {a b : Proc σ α}
    (ha : Proc.AllReturned env a) (hb : Proc.AllReturned env b) : Proc.AllReturned env (if c then a else b) := by
  split <;> assumption

theorem Proc.AllReturned_ifThen {σ : Type} {env : Env} {c : Bool} {a : Proc σ Unit}
    (ha : Proc.AllReturned env a) : Proc.AllReturned env (Proc.ifThen c a) := by
  unfold Proc.ifThen
  split
  · exact ha
  · exact fun _ _ _ e he => by cases he

theorem MemoryPatch_allReturned {σ : Type} (env : Env) (op : MemoryPatch.Op) (h : Handle) (b : Int) :
    Proc.AllReturned env (MemoryPatch env op h b : Proc σ Unit) := by
  intro s a ha e he
  have h1 : e = Event.MemoryPatch op h b := List.mem_singleton.1 he
  subst h1
  exact ha

theorem PatchEngine_allReturned (env : Env) : Proc.AllReturned env (GameLauncher.PatchEngine env) := by
  unfold GameLauncher.PatchEngine
  refine Proc.AllReturned_bind Proc.AllReturned_get (fun self => ?_)
  repeat' with_reducible first
    | exact MemoryPatch_allReturned _ _ _ _
    | exact Proc.AllReturned_pure _
    | apply Proc.AllReturned_ifThen
    | refine Proc.AllReturned_bind ?_ (fun _ => ?_)

theorem phase_patch (e : Event) : e.isPatch = true ↔ e.phase = 5 := by
  cases e <;> simp [Event.phase, Event.isPatch]
  split <;> simp

theorem phase_engineStart (e : Event) : e.isEngineStart = true ↔ 6 ≤ e.phase := by
  cases e <;> simp [Event.phase, Event.isEngineStart]
  split <;> simp

theorem Run_start_ordered (env : Env) : Proc.Ordered 6 10 (GameLauncher.Run.start env) := by
  unfold GameLauncher.Run.start
  refine Proc.Ordered_bind 6 Proc.Ordered_get (fun _ => ?_) (by decide) (by decide)
  refine Proc.Ordered_bind 6 (Proc.Ordered.emit _ (by simp [Event.phase]) (by simp [Event.phase]))
    (fun _ => ?_) (by decide) (by decide)
  refine Proc.Ordered_bind 9 ((StartEngine_ordered env _ _).mono (by decide) (by decide))
    (fun _ => ?_) (by decide) (by decide)
  refine Proc.Ordered_bind 9 (Proc.Ordered_modify _) (fun _ => ?_) (by decide) (by decide)
  refine Proc.Ordered_bind 10 (Proc.Ordered.emit _ (by simp [Event.phase]) (by simp [Event.phase]))
    (fun _ => ?_) (by decide) (by decide)
  exact Proc.Ordered_pure _

theorem Run_patches_returned (env : Env) (s : GameLauncher) (e : Event)
    (he : e ∈ (GameLauncher.Run env s).trace) (hs : e.isEngineStart = true) :
    ∀ p ∈ (GameLauncher.Run env s).trace, p.isPatch = true → p.Returned env := by
  rcases Nat.lt_or_ge env.cmdLine.length env.sizeofCmdLine with hcmd | hcmd
  swap
  · rw [Run_trace_too_long env s hcmd] at he
    rw [List.mem_singleton] at he
    subst he
    cases hs
  rw [Run_eq env s hcmd] at he ⊢
  have hLo := LoadEngine_ordered env (GameLauncher.Run.entered env s)
  cases hL : (GameLauncher.LoadEngine env (GameLauncher.Run.entered env s)).result with
  | error x =>
    exfalso
    rw [Proc.bind_error _ _ _ x hL] at he
    simp only [Outcome.after_trace, List.mem_append, List.mem_cons, List.mem_singleton,
      List.not_mem_nil, or_false] at he
    rcases he with (rfl | rfl) | he
    · cases hs
    · cases hs
    · have := (hLo.2 e he).2
      have := (phase_engineStart e).1 hs
      omega
  | ok u =>
    rw [Proc.bind_ok _ _ _ u hL] at he ⊢
    have hPo := PatchEngine_ordered env (GameLauncher.LoadEngine env (GameLauncher.Run.entered env s)).state
    cases hP : (GameLauncher.PatchEngine env
        (GameLauncher.LoadEngine env (GameLauncher.Run.entered env s)).state).result with
    | error x =>
      exfalso
      rw [Proc.bind_error _ _ _ x hP] at he
      simp only [Outcome.after_trace, List.mem_append, List.mem_cons, List.mem_singleton,
        List.not_mem_nil, or_false] at he
      have h6 := (phase_engineStart e).1 hs
      rcases he with (rfl | rfl) | he | he
      · cases hs
      · cases hs
      · have := (hLo.2 e he).2
        omega
      · have := (hPo.2 e he).2
        omega
    | ok v =>
      rw [Proc.bind_ok _ _ _ v hP]
      intro p hp hpp
      have h5 := (phase_patch p).1 hpp
      simp only [Outcome.after_trace, List.mem_append, List.mem_cons, List.mem_singleton,
        List.not_mem_nil, or_false] at hp
      rcases hp with (rfl | rfl) | hp | hp | hp
      · cases hpp
      · cases hpp
      · have := (hLo.2 p hp).2
        omega
      · exact PatchEngine_allReturned env _ v hP p hp
      · have := ((Run_start_ordered env _).2 p hp).1
        omega

theorem phase_moduleLoad (e : Event) (h : e.isModuleLoad = true) : e.phase = 1 ∨ e.phase = 4 := by
  cases e <;> simp [Event.isModuleLoad, Event.phase] at h ⊢
  exact em _

theorem phase_laterLoad (e : Event) (h : e.isLaterLoad = true) : e.phase = 4 := by
  cases e <;> simp [Event.isLaterLoad, Event.isModuleLoad, Event.phase] at h ⊢
  exact h

theorem phase_buildCheck (e : Event) (h : e.isBuildCheck = true) : e.phase = 2 ∨ e.phase = 3 := by
  cases e <;> simp [Event.isBuildCheck, Event.phase] at h ⊢

/-! ## The calls of `PatchEngine` -/

theorem Proc.Within_bind {σ α β : Type} {L1 L2 : List Event} {m : Proc σ α} {f : α → Proc σ β}
    (hm : Proc.Within L1 m) (hf : ∀ a, Proc.Within L2 (f a)) :
    Proc.Within (L1 ++ L2) (m >>= f) := by
  intro s
  rw [Proc.bind_def, Proc.bind_eq]
  cases (m s).result with
  | error x => exact (hm s).trans (List.sublist_append_left _ _)
  | ok a => exact (hm s).append (hf a _)

theorem Proc.Within_pure {σ α : Type} (a : α) : Proc.Within [] (Pure.pure a : Proc σ α) :=
  fun _ => List.Sublist.refl _

theorem Proc.Within_ite {σ α : Type} {La Lb : List Event} {c : Prop} [Decidable c]
    {a b : Proc σ α} (ha : Proc.Within La a) (hb : Proc.Within Lb b) :
    Proc.Within (if c then La else Lb) (if c then a else b) := by
  split <;> assumption

theorem Proc.Within_ifThen {σ : Type} {L : List Event} {c : Bool} {a : Proc σ Unit}
    (ha : Proc.Within L a) : Proc.Within (if c then L else []) (Proc.ifThen c a) := by
  unfold Proc.ifThen
  split
  · exact ha
  · exact fun _ => List.Sublist.refl _

theorem MemoryPatch_within {σ : Type} (env : Env) (op : MemoryPatch.Op) (h : Handle) (b : Int) :
    Proc.Within [Event.MemoryPatch op h b] (MemoryPatch env op h b : Proc σ Unit) :=
  fun _ => List.Sublist.refl _

theorem PatchEngine_within (env : Env) (s : GameLauncher) :
    List.Sublist (GameLauncher.PatchEngine env s).trace
      (GameLauncher.PatchEngine.calls (!env.HasArg "-splash") s.m_dlls) := by
  unfold GameLauncher.PatchEngine GameLauncher.PatchEngine.calls
  rw [Proc.bind_def, Proc.get_bind]
  refine (?_ : Proc.Within _ _) s
  repeat' with_reducible first
    | exact MemoryPatch_within _ _ _ _
    | exact Proc.Within_pure _
    | apply Proc.Within_ifThen
    | refine Proc.Within_bind ?_ (fun _ => ?_)

theorem countP_ite_nil {α : Type} (p : α → Bool) (c : Prop) [Decidable c] (L : List α) :
    List.countP p (if c then L else []) = if c then List.countP p L else 0 := by
  split <;> rfl

theorem PatchEngine_calls_count (patchIntros : Bool) (d : DLLs) (hd : d.ExeOrGame)
    (op : MemoryPatch.Op) :
    (GameLauncher.PatchEngine.calls patchIntros d).countP (fun e => e.patchOp = some op) ≤ 1 := by
  unfold GameLauncher.PatchEngine.calls
  unfold DLLs.ExeOrGame at hd
  cases op <;>
    simp only [List.countP_append, countP_ite_nil, List.countP_cons, List.countP_nil, Event.patchOp,
      Option.some.injEq, decide_eq_true_eq, reduceCtorEq, if_false, if_true, ite_self,
      Nat.zero_add, Nat.add_zero, decide_False, decide_True, Bool.false_eq_true] <;>
    split_ifs <;> simp_all

theorem Proc.Only_bind {σ α β : Type} {P : Event → Prop} {m : Proc σ α} {f : α → Proc σ β}
    (hm : Proc.Only P m) (hf : ∀ a, Proc.Only P (f a)) : Proc.Only P (m >>= f) := by
  intro s e he
  rw [Proc.bind_def, Proc.bind_eq] at he
  cases hr : (m s).result with
  | error x =>
    rw [hr] at he
    exact hm s e he
  | ok a =>
    rw [hr] at he
    rcases List.mem_append.1 he with h | h
    · exact hm s e h
    · exact hf a _ e h

theorem Proc.Only_pure {σ α : Type} {P : Event → Prop} (a : α) :
    Proc.Only P (Pure.pure a : Proc σ α) :=
  fun _ e he => by cases he

theorem Proc.Only_ifThen {σ : Type} {P : Event → Prop} {c : Bool} {a : Proc σ Unit}
    (ha : c = true → Proc.Only P a) : Proc.Only P (Proc.ifThen c a) := by
  unfold Proc.ifThen
  split
  · exact ha (by assumption)
  · exact fun _ e he => by cases he

theorem MemoryPatch_onLoaded {σ : Type} (env : Env) (op : MemoryPatch.Op) (h : Handle) (b : Int)
    (hh : h ≠ 0) : Proc.Only Event.OnLoadedModule (MemoryPatch env op h b : Proc σ Unit) := by
  intro s e he
  have h1 : e = Event.MemoryPatch op h b := List.mem_singleton.1 he
  subst h1
  exact hh

theorem PatchEngine_onLoaded (env : Env) (s : GameLauncher) :
    ∀ e ∈ (GameLauncher.PatchEngine env s).trace, e.OnLoadedModule := by
  unfold GameLauncher.PatchEngine
  rw [Proc.bind_def, Proc.get_bind]
  refine (?_ : Proc.Only _ _) s
  repeat' with_reducible first
    | exact Proc.Only_pure _
    | refine Proc.Only_ifThen (fun hc => ?_)
    | refine Proc.Only_bind ?_ (fun _ => ?_)
    | refine MemoryPatch_onLoaded _ _ _ _ ?_
  all_goals simp_all

/-! ## The modules `LoadEngine` leaves loaded -/

theorem Proc.Maintains_bind {σ α β : Type} {P Q : σ → Prop} (R : σ → Prop) {m : Proc σ α}
    {f : α → Proc σ β} (hm : Proc.Maintains P R m) (hf : ∀ a, Proc.Maintains R Q (f a))
    (hRQ : ∀ s, R s → Q s) : Proc.Maintains P Q (m >>= f) := by
  intro s hs
  rw [Proc.bind_def, Proc.bind_eq]
  cases (m s).result with
  | error x => exact hRQ _ (hm s hs)
  | ok a => exact hf a _ (hm s hs)

theorem Proc.Maintains_call {σ α : Type} {P : σ → Prop} (e : Event) (r : Except Exception α) :
    Proc.Maintains P P (Proc.call e r : Proc σ α) := fun _ hs => hs

theorem Proc.Maintains_get {σ : Type} {P : σ → Prop} :
    Proc.Maintains P P (Proc.get : Proc σ σ) := fun _ hs => hs

theorem Proc.Maintains_pure {σ α : Type} {P : σ → Prop} (a : α) :
    Proc.Maintains P P (Pure.pure a : Proc σ α) := fun _ hs => hs

theorem Proc.Maintains_modify {σ : Type} {P Q : σ → Prop} (g : σ → σ)
    (h : ∀ s, P s → Q (g s)) : Proc.Maintains P Q (Proc.modify g) := fun s hs => h s hs

theorem Proc.Maintains_ite {σ α : Type} {P Q : σ → Prop} {c : Prop} [Decidable c]
    {a b : Proc σ α} (ha : Proc.Maintains P Q a) (hb : Proc.Maintains P Q b) :
    Proc.Maintains P Q (if c then a else b) := by
  split <;> assumption

theorem Proc.Maintains_ifThen {σ : Type} {P : σ → Prop} {c : Bool} {a : Proc σ Unit}
    (ha : Proc.Maintains P P a) : Proc.Maintains P P (Proc.ifThen c a) := by
  unfold Proc.ifThen
  split
  · exact ha
  · exact fun _ hs => hs

theorem LoadEngine_exeOrGame (env : Env) :
    Proc.Maintains GameLauncher.NoGameModule (fun s => s.m_dlls.ExeOrGame)
      (GameLauncher.LoadEngine env) := by
  have hKJ : ∀ s : GameLauncher, s.NoGameModule → s.m_dlls.ExeOrGame :=
    fun s hs => Or.inl hs.1
  have hEJ : ∀ s : GameLauncher, s.m_dlls.pEXE = 0 → s.m_dlls.ExeOrGame :=
    fun s hs => Or.inl hs
  unfold GameLauncher.LoadEngine LoadDLL LoadCrysisWarheadEXE setDLLs
  refine Proc.Maintains_bind _ (Proc.Maintains_call _ _) (fun _ => ?_) hKJ
  refine Proc.Maintains_bind _ (Proc.Maintains_modify _ (fun s hs => ?_)) (fun _ => ?_) hKJ
  · exact hs
  refine Proc.Maintains_bind _ (Proc.Maintains_call _ _) (fun _ => ?_) hKJ
  refine Proc.Maintains_bind _ (Proc.Maintains_modify _ (fun s hs => ?_)) (fun _ => ?_) hKJ
  · exact hs
  refine Proc.Maintains_bind _ (Proc.Maintains_modify _ (fun s hs => ?_)) (fun _ => ?_) hKJ
  · exact hs
  refine Proc.Maintains_bind _ (Proc.Maintains_call _ _) (fun _ => ?_) hKJ
  refine Proc.Maintains_bind _ Proc.Maintains_get (fun _ => ?_) hKJ
  refine Proc.Maintains_bind (fun s => s.m_dlls.ExeOrGame) (Proc.Maintains_ite ?_ ?_) (fun _ => ?_)
    (fun _ hs => hs)
  · refine Proc.Maintains_bind _ (Proc.Maintains_call _ _) (fun _ => ?_) hKJ
    exact Proc.Maintains_modify _ (fun s hs => Or.inr ⟨hs.2.1, hs.2.2⟩)
  · refine Proc.Maintains_bind _ (Proc.Maintains_call _ _) (fun _ => ?_) hKJ
    refine Proc.Maintains_bind (fun s => s.m_dlls.pEXE = 0)
      (Proc.Maintains_modify _ (fun s hs => hs.1)) (fun _ => ?_) hEJ
    refine Proc.Maintains_bind _ (Proc.Maintains_call _ _) (fun _ => ?_) hEJ
    exact Proc.Maintains_modify _ (fun s hs => Or.inl hs)
  · refine Proc.Maintains_bind _ (Proc.Maintains_call _ _) (fun _ => ?_) (fun _ hs => hs)
    refine Proc.Maintains_bind _ (Proc.Maintains_modify _ (fun s hs => ?_)) (fun _ => ?_)
      (fun _ hs => hs)
    · exact hs
    refine Proc.Maintains_bind _ Proc.Maintains_get (fun _ => ?_) (fun _ hs => hs)
    refine Proc.Maintains_ifThen (Proc.Maintains_ite ?_ ?_)
    · refine Proc.Maintains_bind _ (Proc.Maintains_call _ _) (fun _ => ?_) (fun _ hs => hs)
      exact Proc.Maintains_modify _ (fun s hs => hs)
    · refine Proc.Maintains_bind _ (Proc.Maintains_call _ _) (fun _ => ?_) (fun _ hs => hs)
      exact Proc.Maintains_modify _ (fun s hs => hs)

/-! ## `LogBytes`: the scaling loop -/

theorem LogBytes.loop_step (i : Nat) (u : String) (b : Nat) (hi : i < 6) (hb : 1024 ≤ b) :
    LogBytes.loop i u b = LogBytes.loop (i + 1) (LogBytes.units.getD i "") (b / 1024) := by
  rw [LogBytes.loop, if_pos ⟨hi, hb⟩]

theorem LogBytes.loop_stop (i : Nat) (u : String) (b : Nat) (h : b < 1024) :
    LogBytes.loop i u b = (i, u, b) := by
  rw [LogBytes.loop, if_neg (by omega)]

theorem LogBytes.loop_full (u : String) (b : Nat) : LogBytes.loop 6 u b = (6, u, b) := by
  rw [LogBytes.loop, if_neg (by omega)]

theorem LogBytes.loop_spec (b : Nat) (hb : b < 2 ^ 64) :
    ∃ k, k ≤ 6 ∧
      LogBytes.loop 0 "" b
        = (k, (if k = 0 then "" else LogBytes.units.getD (k - 1) ""), b / 1024 ^ k) ∧
      b / 1024 ^ k < 1024 ∧ (∀ j, j < k → 1024 ≤ b / 1024 ^ j) := by
  norm_num at hb
  by_cases h0 : b < 1024
  · refine ⟨0, by omega, ?_, by simpa using h0, by intro j hj; omega⟩
    rw [LogBytes.loop_stop _ _ _ h0]; simp
  by_cases h1 : b / 1024 < 1024
  · refine ⟨1, by omega, ?_, by simpa using h1, ?_⟩
    · rw [LogBytes.loop_step _ _ _ (by omega) (by omega), LogBytes.loop_stop _ _ _ h1]; rfl
    · intro j hj; interval_cases j; norm_num; omega
  by_cases h2 : b / 1024 / 1024 < 1024
  · have e2 : b / 1024 ^ 2 = b / 1024 / 1024 := by norm_num; omega
    refine ⟨2, by omega, ?_, by omega, ?_⟩
    · rw [LogBytes.loop_step _ _ _ (by omega) (by omega),
        LogBytes.loop_step _ _ _ (by omega) (by omega), LogBytes.loop_stop _ _ _ h2, e2]; rfl
    · intro j hj; interval_cases j <;> norm_num <;> omega
  by_cases h3 : b / 1024 / 1024 / 1024 < 1024
  · have e3 : b / 1024 ^ 3 = b / 1024 / 1024 / 1024 := by norm_num; omega
    refine ⟨3, by omega, ?_, by omega, ?_⟩
    · rw [LogBytes.loop_step _ _ _ (by omega) (by omega),
        LogBytes.loop_step _ _ _ (by omega) (by omega),
        LogBytes.loop_step _ _ _ (by omega) (by omega), LogBytes.loop_stop _ _ _ h3, e3]; rfl
    · intro j hj; interval_cases j <;> norm_num <;> omega
  by_cases h4 : b / 1024 / 1024 / 1024 / 1024 < 1024
  · have e4 : b / 1024 ^ 4 = b / 1024 / 1024 / 1024 / 1024 := by norm_num; omega
    refine ⟨4, by omega, ?_, by omega, ?_⟩
    · rw [LogBytes.loop_step _ _ _ (by omega) (by omega),
        LogBytes.loop_step _ _ _ (by omega) (by omega),
        LogBytes.loop_step _ _ _ (by omega) (by omega),
        LogBytes.loop_step _ _ _ (by omega) (by omega), LogBytes.loop_stop _ _ _ h4, e4]; rfl
    · intro j hj; interval_cases j <;> norm_num <;> omega
  by_cases h5 : b / 1024 / 1024 / 1024 / 1024 / 1024 < 1024
  · have e5 : b / 1024 ^ 5 = b / 1024 / 1024 / 1024 / 1024 / 1024 := by norm_num; omega
    refine ⟨5, by omega, ?_, by omega, ?_⟩
    · rw [LogBytes.loop_step _ _ _ (by omega) (by omega),
        LogBytes.loop_step _ _ _ (by omega) (by omega),
        LogBytes.loop_step _ _ _ (by omega) (by omega),
        LogBytes.loop_step _ _ _ (by omega) (by omega),
        LogBytes.loop_step _ _ _ (by omega) (by omega), LogBytes.loop_stop _ _ _ h5, e5]; rfl
    · intro j hj; interval_cases j <;> norm_num <;> omega
  · have e6 : b / 1024 ^ 6 = b / 1024 / 1024 / 1024 / 1024 / 1024 / 1024 := by norm_num; omega
    refine ⟨6, by omega, ?_, by omega, ?_⟩
    · rw [LogBytes.loop_step _ _ _ (by omega) (by omega),
        LogBytes.loop_step _ _ _ (by omega) (by omega),
        LogBytes.loop_step _ _ _ (by omega) (by omega),
        LogBytes.loop_step _ _ _ (by omega) (by omega),
        LogBytes.loop_step _ _ _ (by omega) (by omega),
        LogBytes.loop_step _ _ _ (by omega) (by omega), LogBytes.loop_full, e6]; rfl
    · intro j hj; interval_cases j <;> norm_num <;> omega

/-! ## `VerifyGameBuild`: the default case -/

theorem VerifyGameBuild_default (BUILD_64BIT : Bool) (gameBuild : Int)
    (h : gameBuild ∉
      ([5767, 5879, 6115, 6156, 6527, 6566, 6586, 6627, 6670, 6729, 687, 710, 711] : List Int)) :
    VerifyGameBuild BUILD_64BIT gameBuild
      = Except.error (Exception.Error "Unknown game build %d" [gameBuild]) := by
  simp only [List.mem_cons, List.mem_singleton, List.not_mem_nil, not_or, or_false] at h
  obtain ⟨h1, h2, h3, h4, h5, h6, h7, h8, h9, h10, h11, h12, h13⟩ := h
  simp [VerifyGameBuild, VerifyGameBuild.arm, *]

theorem VerifyGameBuild_warhead_iff (BUILD_64BIT : Bool) (gameBuild : Int) :
    VerifyGameBuild BUILD_64BIT gameBuild
        = Except.error (Exception.Error "Crysis Warhead is not supported!" [])
      ↔ gameBuild = 687 ∨ gameBuild = 710 ∨ gameBuild = 711 := by
  unfold VerifyGameBuild VerifyGameBuild.arm
  constructor
  · intro h
    split_ifs at h with h1 h2 h3 <;> first | assumption | simp at h
  · intro h
    rcases h with h | h | h <;> subst h <;> cases BUILD_64BIT <;> simp

/-! ## The claims -/

/-- C1. Every build identifier outside the support table (none of the base-game
and Crysis Wars builds, none of the Warhead builds 687, 710, 711) makes
`VerifyGameBuild` throw the unknown-build error carrying that identifier, in
the 32-bit and in the 64-bit configuration. -/
theorem VerifyGameBuild_unknown_build (BUILD_64BIT : Bool) (gameBuild : Int)
    (h : gameBuild ∉
      ([5767, 5879, 6115, 6156, 6527, 6566, 6586, 6627, 6670, 6729, 687, 710, 711] : List Int)) :
    VerifyGameBuild BUILD_64BIT gameBuild
      = Except.error (Exception.Error "Unknown game build %d" [gameBuild]) :=
  VerifyGameBuild_default BUILD_64BIT gameBuild h

/-- C1, at build 9999: it is outside the table and is rejected as unknown. -/
theorem VerifyGameBuild_unknown_build_9999 :
    (9999 : Int) ∉
        ([5767, 5879, 6115, 6156, 6527, 6566, 6586, 6627, 6670, 6729, 687, 710, 711] : List Int) ∧
      VerifyGameBuild false 9999
        = Except.error (Exception.Error "Unknown game build %d" [9999]) :=
  ⟨by decide, VerifyGameBuild_unknown_build false 9999 (by decide)⟩

/-- C2. `VerifyGameBuild` throws "Crysis Warhead is not supported!" for each of
the builds 687, 710 and 711 and for no other build, and what it does for a
Warhead build differs from what it does for any build outside the table, which
is to throw the unknown-build error. -/
theorem VerifyGameBuild_warhead_error (BUILD_64BIT : Bool) :
    (∀ w ∈ ([687, 710, 711] : List Int), VerifyGameBuild BUILD_64BIT w
        = Except.error (Exception.Error "Crysis Warhead is not supported!" [])) ∧
    (∀ b : Int, VerifyGameBuild BUILD_64BIT b
        = Except.error (Exception.Error "Crysis Warhead is not supported!" []) →
      b ∈ ([687, 710, 711] : List Int)) ∧
    (∀ w ∈ ([687, 710, 711] : List Int), ∀ u : Int,
      u ∉ ([5767, 5879, 6115, 6156, 6527, 6566, 6586, 6627, 6670, 6729, 687, 710, 711] : List Int) →
      VerifyGameBuild BUILD_64BIT u
          = Except.error (Exception.Error "Unknown game build %d" [u]) ∧
        VerifyGameBuild BUILD_64BIT w ≠ VerifyGameBuild BUILD_64BIT u) := by
  have hw : ∀ w ∈ ([687, 710, 711] : List Int), VerifyGameBuild BUILD_64BIT w
      = Except.error (Exception.Error "Crysis Warhead is not supported!" []) := by
    intro w hw
    refine (VerifyGameBuild_warhead_iff BUILD_64BIT w).2 ?_
    simpa using hw
  refine ⟨hw, fun b hb => ?_, fun w hwm u hu => ?_⟩
  · have := (VerifyGameBuild_warhead_iff BUILD_64BIT b).1 hb
    simpa using this
  · refine ⟨VerifyGameBuild_default BUILD_64BIT u hu, ?_⟩
    rw [hw w hwm, VerifyGameBuild_default BUILD_64BIT u hu]
    simp

/-- C3. Build 6156 is accepted and falls in the base-game (`// Crysis`) case;
so does each of 5767, 5879, 6115, 6156, and each of 6566, 6586, 6627, 6670,
6729 is accepted in the Crysis Wars case, whether or not `BUILD_64BIT` is
defined. -/
theorem VerifyGameBuild_supported (BUILD_64BIT : Bool) :
    VerifyGameBuild BUILD_64BIT 6156 = Except.ok () ∧
    VerifyGameBuild.arm BUILD_64BIT 6156 = SwitchArm.Crysis ∧
    (∀ b ∈ ([5767, 5879, 6115, 6156] : List Int),
      VerifyGameBuild BUILD_64BIT b = Except.ok () ∧
        VerifyGameBuild.arm BUILD_64BIT b = SwitchArm.Crysis) ∧
    (∀ b ∈ ([6566, 6586, 6627, 6670, 6729] : List Int),
      VerifyGameBuild BUILD_64BIT b = Except.ok () ∧
        VerifyGameBuild.arm BUILD_64BIT b = SwitchArm.CrysisWars) := by
  cases BUILD_64BIT <;> simp [VerifyGameBuild, VerifyGameBuild.arm]

/-- C4. Verification gates all patching: when `CrySystem.dll` loads and
`GetGameBuild` or `VerifyGameBuild` throws on it, `GameLauncher::Run` ends with
an exception, which is the one thrown by that call whenever the command line
fits `params.cmdLine`, and its trace holds no `MemoryPatch` call and no
`StartEngine` activity, whatever the rest of the environment does. -/
theorem Run_build_check_gates_patching (env : Env) (s : GameLauncher) (h : Handle)
    (e : Exception) (hload : env.LoadDLL "CrySystem.dll" = Except.ok h)
    (hfail : GetGameBuild env h = Except.error e ∨
      ∃ b, GetGameBuild env h = Except.ok b ∧
        VerifyGameBuild env.BUILD_64BIT b = Except.error e) :
    (∃ thrown, (GameLauncher.Run env s).result = Except.error thrown) ∧
    (env.cmdLine.length < env.sizeofCmdLine → (GameLauncher.Run env s).result = Except.error e) ∧
    ∀ ev ∈ (GameLauncher.Run env s).trace, ev.isPatch = false ∧ ev.isEngineStart = false := by
  rcases Nat.lt_or_ge env.cmdLine.length env.sizeofCmdLine with hcmd | hcmd
  · have h4 := Run_build_check_fails env s h e hcmd hload hfail
    exact ⟨⟨e, h4.1⟩, fun _ => h4.1, h4.2⟩
  · refine ⟨⟨_, Run_result_too_long env s hcmd⟩, fun hlt => by omega, fun ev hev => ?_⟩
    rw [Run_trace_too_long env s hcmd, List.mem_singleton] at hev
    subst hev
    exact ⟨rfl, rfl⟩

/-- C4, at an installation whose `CrySystem.dll` loads and reports build 9999:
the run throws the unknown-build error and makes no patch call. -/
theorem Run_build_check_gates_patching_9999 :
    (env9999.LoadDLL "CrySystem.dll" = Except.ok 2 ∧
      (GetGameBuild env9999 2 = Except.error (Exception.Error "Unknown game build %d" [9999]) ∨
        ∃ b, GetGameBuild env9999 2 = Except.ok b ∧ VerifyGameBuild env9999.BUILD_64BIT b
          = Except.error (Exception.Error "Unknown game build %d" [9999]))) ∧
    ((∃ thrown, (GameLauncher.Run env9999 GameLauncher.new).result = Except.error thrown) ∧
      (env9999.cmdLine.length < env9999.sizeofCmdLine →
        (GameLauncher.Run env9999 GameLauncher.new).result
          = Except.error (Exception.Error "Unknown game build %d" [9999])) ∧
      ∀ ev ∈ (GameLauncher.Run env9999 GameLauncher.new).trace,
        ev.isPatch = false ∧ ev.isEngineStart = false) :=
  ⟨⟨rfl, Or.inr ⟨9999, rfl, rfl⟩⟩,
    Run_build_check_gates_patching env9999 GameLauncher.new 2
      (Exception.Error "Unknown game build %d" [9999]) rfl
      (Or.inr ⟨9999, rfl, rfl⟩)⟩

/-- C5. In every run of `GameLauncher::Run`, every `MemoryPatch` call comes
before the entry into `StartEngine` and everything after it (symbol lookup,
the `CreateGameStartup` call, `Init`, `Run`); and if the run reaches
`StartEngine` at all, every patch or hook call it made had returned normally. -/
theorem Run_patches_before_engine (env : Env) (s : GameLauncher) :
    Precedes Event.isPatch Event.isEngineStart (GameLauncher.Run env s).trace ∧
    ((∃ e ∈ (GameLauncher.Run env s).trace, e.isEngineStart = true) →
      ∀ op pModule gameBuild,
        Event.MemoryPatch op pModule gameBuild ∈ (GameLauncher.Run env s).trace →
        env.MemoryPatch op pModule gameBuild = Except.ok ()) := by
  refine ⟨(Run_ordered env s).1.precedes _ _ fun a b ha hb => ?_, ?_⟩
  · have := (phase_patch a).1 ha
    have := (phase_engineStart b).1 hb
    omega
  · rintro ⟨e, he, hs⟩ op h b hp
    exact Run_patches_returned env s e he hs _ hp rfl

/-- C6 as stated fails: on an unmodified build-6156 installation the load of
`CryGame.dll` is the sixth call of the run and `VerifyGameBuild` the fifth. -/
theorem Run_loads_not_all_before_build_check :
    ¬ LoadsThenBuildCheckThenPatches (GameLauncher.Run env6156 GameLauncher.new).trace := by
  intro h
  have := h.1 5 4 (Event.LoadDLL "CryGame.dll") (Event.VerifyGameBuild 6156) (by decide)
    (by decide) (by decide) (by decide)
  omega

/-- C6, amended. In every run of `GameLauncher::Run` the load of `CrySystem.dll`
comes before `GetGameBuild` and `VerifyGameBuild`; every other module load
comes after both of them; and every module load, `GetGameBuild` and
`VerifyGameBuild` come before every patch or hook call. -/
theorem Run_load_order (env : Env) (s : GameLauncher) :
    Precedes (fun e => e == Event.LoadDLL "CrySystem.dll") Event.isBuildCheck
      (GameLauncher.Run env s).trace ∧
    Precedes Event.isBuildCheck Event.isLaterLoad (GameLauncher.Run env s).trace ∧
    Precedes Event.isModuleLoad Event.isPatch (GameLauncher.Run env s).trace ∧
    Precedes Event.isBuildCheck Event.isPatch (GameLauncher.Run env s).trace := by
  have hst := (Run_ordered env s).1
  refine ⟨hst.precedes _ _ ?_, hst.precedes _ _ ?_, hst.precedes _ _ ?_, hst.precedes _ _ ?_⟩
  · intro a b ha hb
    have ha2 : a = Event.LoadDLL "CrySystem.dll" := by simpa using ha
    have h1 : a.phase = 1 := by rw [ha2]; rfl
    have := phase_buildCheck b hb
    omega
  · intro a b ha hb
    have := phase_buildCheck a ha
    have := phase_laterLoad b hb
    omega
  · intro a b ha hb
    have := (phase_patch b).1 hb
    have := phase_moduleLoad a ha
    omega
  · intro a b ha hb
    have := (phase_patch b).1 hb
    have := phase_buildCheck a ha
    omega

/-- C7. On the launcher state left by the constructor followed by `LoadEngine`
(however `LoadEngine` ended), one execution of `PatchEngine` calls each
`MemoryPatch` function at most once in all, hence at most once on any given
module handle, and every call it makes is on a non-null handle. -/
theorem PatchEngine_at_most_once (env : Env) :
    (∀ op, ((GameLauncher.PatchEngine env
        (GameLauncher.LoadEngine env GameLauncher.new).state).trace.countP
          fun e => e.patchOp = some op) ≤ 1) ∧
    (∀ op pModule, (GameLauncher.PatchEngine env
        (GameLauncher.LoadEngine env GameLauncher.new).state).trace.countP
          (Event.isCallOn op pModule) ≤ 1) ∧
    (∀ e ∈ (GameLauncher.PatchEngine env
        (GameLauncher.LoadEngine env GameLauncher.new).state).trace,
      ∃ op pModule gameBuild, e = Event.MemoryPatch op pModule gameBuild ∧ pModule ≠ 0) := by
  have hinv : (GameLauncher.LoadEngine env GameLauncher.new).state.m_dlls.ExeOrGame :=
    LoadEngine_exeOrGame env GameLauncher.new ⟨rfl, rfl, rfl⟩
  have hop : ∀ op, ((GameLauncher.PatchEngine env
      (GameLauncher.LoadEngine env GameLauncher.new).state).trace.countP
        fun e => e.patchOp = some op) ≤ 1 := fun op =>
    le_trans ((PatchEngine_within env _).countP_le _) (PatchEngine_calls_count _ _ hinv op)
  refine ⟨hop, fun op pModule => le_trans ?_ (hop op), fun e he => ?_⟩
  · refine List.countP_mono_left fun e _ he => ?_
    cases e <;> simp [Event.isCallOn, Event.patchOp] at he ⊢
    exact he.1
  · have := PatchEngine_onLoaded env _ e he
    cases e <;> simp [Event.OnLoadedModule] at this
    exact ⟨_, _, _, rfl, this⟩

/-- C8 as stated fails: when both libraries load but neither exports its entry
point, `InitD3D10` returns `true` with `pD3D10CreateDevice` and
`pCreateDXGIFactory` left `NULL`. -/
theorem InitD3D10_true_with_null_entry_points :
    (InitD3D10 dllWithoutSymbols API.null).1 = true ∧
    ¬ (InitD3D10 dllWithoutSymbols API.null).2.AllResolved ∧
    (InitD3D10 dllWithoutSymbols API.null).2.pD3D10CreateDevice = 0 ∧
    (InitD3D10 dllWithoutSymbols API.null).2.pCreateDXGIFactory = 0 := by
  refine ⟨by decide, ?_, by decide, by decide⟩
  intro h
  exact h.2.1 (by decide)

/-- C8, amended. `InitD3D10` returns `true` exactly when both `d3d10.dll` and
`dxgi.dll` load; the table it then leaves holds the two non-null library
handles, and in each entry-point field whatever `FindSymbol` returned for that
symbol, null or not. -/
theorem InitD3D10_success (os : DLL) (api : API) :
    ((InitD3D10 os api).1 = true ↔ os.Load "d3d10.dll" ≠ 0 ∧ os.Load "dxgi.dll" ≠ 0) ∧
    ((InitD3D10 os api).1 = true →
      (InitD3D10 os api).2.pD3D10 = os.Load "d3d10.dll" ∧
      (InitD3D10 os api).2.pD3D10 ≠ 0 ∧
      (InitD3D10 os api).2.pDXGI = os.Load "dxgi.dll" ∧
      (InitD3D10 os api).2.pDXGI ≠ 0 ∧
      (InitD3D10 os api).2.pD3D10CreateDevice
        = os.FindSymbol (os.Load "d3d10.dll") "D3D10CreateDevice" ∧
      (InitD3D10 os api).2.pCreateDXGIFactory
        = os.FindSymbol (os.Load "dxgi.dll") "CreateDXGIFactory") := by
  unfold InitD3D10
  by_cases h1 : os.Load "d3d10.dll" = 0
  · simp [h1]
  · by_cases h2 : os.Load "dxgi.dll" = 0
    · simp [h1, h2]
    · simp [h1, h2]

/-- C9. `StartEngine` returns an interface exactly when the `CreateGameStartup`
symbol is found, the entry function returns a non-null interface and `Init` on
it returns `true`, and it then returns that interface; otherwise it throws: the
invalid-DLL error without calling the entry function when the symbol is
missing, the creation error without calling `Init` when the interface is null,
the initialization error when `Init` returns `false`. -/
theorem StartEngine_result {σ : Type} (env : Env) (pCryGame : Handle)
    (params : SSystemInitParams) (s : σ) :
    (∀ p, (StartEngine env pCryGame params s).result = Except.ok p ↔
      (env.FindSymbol pCryGame "CreateGameStartup" ≠ 0 ∧
        env.TEntryFunction (env.FindSymbol pCryGame "CreateGameStartup") ≠ 0 ∧
        env.Init (env.TEntryFunction (env.FindSymbol pCryGame "CreateGameStartup")) params = true ∧
        p = env.TEntryFunction (env.FindSymbol pCryGame "CreateGameStartup"))) ∧
    (env.FindSymbol pCryGame "CreateGameStartup" = 0 →
      (StartEngine env pCryGame params s).result
          = Except.error (Exception.Error "The CryGame DLL is not valid!" []) ∧
        (StartEngine env pCryGame params s).trace
          = [Event.FindSymbol pCryGame "CreateGameStartup"]) ∧
    (env.FindSymbol pCryGame "CreateGameStartup" ≠ 0 →
      env.TEntryFunction (env.FindSymbol pCryGame "CreateGameStartup") = 0 →
      (StartEngine env pCryGame params s).result
          = Except.error (Exception.Error "Failed to create the GameStartup Interface!" []) ∧
        (StartEngine env pCryGame params s).trace
          = [Event.FindSymbol pCryGame "CreateGameStartup",
              Event.CreateGameStartup (env.FindSymbol pCryGame "CreateGameStartup")]) ∧
    (env.FindSymbol pCryGame "CreateGameStartup" ≠ 0 →
      env.TEntryFunction (env.FindSymbol pCryGame "CreateGameStartup") ≠ 0 →
      env.Init (env.TEntryFunction (env.FindSymbol pCryGame "CreateGameStartup")) params = false →
      (StartEngine env pCryGame params s).result
          = Except.error (Exception.Error "Game initialization failed!" [])) := by
  unfold StartEngine
  simp only [Proc.bind_def, Proc.emit_bind]
  by_cases h1 : env.FindSymbol pCryGame "CreateGameStartup" = 0
  · simp [h1, Proc.throw, Outcome.after]
  · by_cases h2 : env.TEntryFunction (env.FindSymbol pCryGame "CreateGameStartup") = 0
    · simp [h1, h2, Proc.throw, Outcome.after, Proc.emit_bind]
    · by_cases h3 :
        env.Init (env.TEntryFunction (env.FindSymbol pCryGame "CreateGameStartup")) params = true
      · simp [h1, h2, h3, Proc.throw, Outcome.after, Proc.emit_bind, Proc.pure_def, Proc.pure]
        intro p
        show (Proc.pure _ s).result = _ ↔ _
        simp only [Proc.pure, Except.ok.injEq]
        exact eq_comm
      · simp [h1, h2, h3, Proc.throw, Outcome.after, Proc.emit_bind, Proc.pure_def, Proc.pure]

/-- C10. For a byte count below 2^64 the loop of `LogBytes` stops after `k <= 6`
divisions, `k` being the least number that brings the value below 1024; the
value logged is `bytes / 1024^k`, below 1024 and unchanged by the cast to
`unsigned int`; the unit logged is the empty string for `k = 0` and "K", "M",
"G", "T", "P", "E" for `k = 1, ..., 6`; and
`v * 1024^k <= bytes < (v + 1) * 1024^k`. -/
theorem LogBytes_scales_exactly (message : String) (bytes : Nat) (hb : bytes < 2 ^ 64) :
    ∃ k, k ≤ 6 ∧ (LogBytes.loop 0 "" bytes).1 = k ∧
      LogBytes message bytes
        = (message, bytes / 1024 ^ k,
            (["", "K", "M", "G", "T", "P", "E"] : List String).getD k "") ∧
      (k = 0 → (LogBytes message bytes).2.2 = "") ∧
      (k = 1 → (LogBytes message bytes).2.2 = "K") ∧
      (k = 2 → (LogBytes message bytes).2.2 = "M") ∧
      (k = 3 → (LogBytes message bytes).2.2 = "G") ∧
      (k = 4 → (LogBytes message bytes).2.2 = "T") ∧
      (k = 5 → (LogBytes message bytes).2.2 = "P") ∧
      (k = 6 → (LogBytes message bytes).2.2 = "E") ∧
      bytes / 1024 ^ k < 1024 ∧
      (∀ j, j < k → 1024 ≤ bytes / 1024 ^ j) ∧
      (bytes / 1024 ^ k) % 2 ^ 32 = bytes / 1024 ^ k ∧
      bytes / 1024 ^ k * 1024 ^ k ≤ bytes ∧ bytes < (bytes / 1024 ^ k + 1) * 1024 ^ k := by
  obtain ⟨k, hk, hloop, hv, hleast⟩ := LogBytes.loop_spec bytes hb
  have hmod : (bytes / 1024 ^ k) % 2 ^ 32 = bytes / 1024 ^ k :=
    Nat.mod_eq_of_lt (lt_trans hv (by norm_num))
  have hunit : (if k = 0 then "" else LogBytes.units.getD (k - 1) "")
      = (["", "K", "M", "G", "T", "P", "E"] : List String).getD k "" := by
    interval_cases k <;> rfl
  have hlog : LogBytes message bytes
      = (message, bytes / 1024 ^ k,
          (["", "K", "M", "G", "T", "P", "E"] : List String).getD k "") := by
    unfold LogBytes
    rw [hloop]
    simp only [hmod, hunit]
  refine ⟨k, hk, by rw [hloop], hlog, ?_, ?_, ?_, ?_, ?_, ?_, ?_, hv, hleast, hmod,
    Nat.div_mul_le_self _ _, ?_⟩
  · intro h0; rw [hlog, h0]; rfl
  · intro h0; rw [hlog, h0]; rfl
  · intro h0; rw [hlog, h0]; rfl
  · intro h0; rw [hlog, h0]; rfl
  · intro h0; rw [hlog, h0]; rfl
  · intro h0; rw [hlog, h0]; rfl
  · intro h0; rw [hlog, h0]; rfl
  · have hpos : 0 < 1024 ^ k := by positivity
    have h1 := Nat.div_add_mod bytes (1024 ^ k)
    have h2 := Nat.mod_lt bytes hpos
    rw [Nat.add_mul, Nat.one_mul, Nat.mul_comm]
    omega

/-- C10, at 5000000 bytes: two divisions, logged as `4M`. -/
theorem LogBytes_scales_exactly_5000000 :
    (5000000 : Nat) < 2 ^ 64 ∧
    LogBytes "Shared system memory = " 5000000 = ("Shared system memory = ", 4, "M") ∧
    ∃ k, k ≤ 6 ∧ (LogBytes.loop 0 "" 5000000).1 = k ∧
      LogBytes "Shared system memory = " 5000000
        = ("Shared system memory = ", 5000000 / 1024 ^ k,
            (["", "K", "M", "G", "T", "P", "E"] : List String).getD k "") ∧
      (k = 0 → (LogBytes "Shared system memory = " 5000000).2.2 = "") ∧
      (k = 1 → (LogBytes "Shared system memory = " 5000000).2.2 = "K") ∧
      (k = 2 → (LogBytes "Shared system memory = " 5000000).2.2 = "M") ∧
      (k = 3 → (LogBytes "Shared system memory = " 5000000).2.2 = "G") ∧
      (k = 4 → (LogBytes "Shared system memory = " 5000000).2.2 = "T") ∧
      (k = 5 → (LogBytes "Shared system memory = " 5000000).2.2 = "P") ∧
      (k = 6 → (LogBytes "Shared system memory = " 5000000).2.2 = "E") ∧
      5000000 / 1024 ^ k < 1024 ∧
      (∀ j, j < k → 1024 ≤ 5000000 / 1024 ^ j) ∧
      (5000000 / 1024 ^ k) % 2 ^ 32 = 5000000 / 1024 ^ k ∧
      5000000 / 1024 ^ k * 1024 ^ k ≤ 5000000 ∧ 5000000 < (5000000 / 1024 ^ k + 1) * 1024 ^ k :=
  ⟨by norm_num, by simp [LogBytes, LogBytes.loop, LogBytes.units],
    LogBytes_scales_exactly "Shared system memory = " 5000000 (by norm_num)⟩

end C1Launcher
